import Mathlib

/-
Shallow embedding of selfdrive/controls/lib/events.py: the event-to-alert
catalog and the per-tick arbitration engine (class Events), written as a
verification development.  Python floats are modelled as exact rationals,
Python dicts as ordered association lists, and the in-place mutation of
the Alert objects stored in the module-level catalog as explicit state
threading.  External collaborators (the cereal wire schema, the
common.realtime tick constant, unit conversions, localization) are
modelled from the spec where noted on each definition.
-/

namespace SdPilot

/-- Modelled from the spec: the fixed control tick period (DT_CTRL in
common.realtime, external to the repository source); a positive
process-wide constant, here the conventional 100 Hz control rate. -/
def DT_CTRL : ℚ := 1 / 100

/-- Python int() applied to a numeric value: truncation toward zero. -/
def pyInt (q : ℚ) : Int := if q < 0 then -Rat.floor (-q) else Rat.floor q

/-- Python round() without a digits argument: round half to even,
returning an integer. -/
def pyRound (q : ℚ) : Int :=
  let f := Rat.floor q
  let r := q - f
  if r < 1 / 2 then f
  else if 1 / 2 < r then f + 1
  else if f % 2 = 0 then f else f + 1

/-- Modelled from the spec: localization of alert text is an excluded
external collaborator (gettext with fallback); modelled as the identity
on message ids. -/
def tr (s : String) : String := s

/-- Alert priorities (class Priority, an IntEnum). -/
inductive Priority
  | LOWEST
  | LOWER
  | LOW
  | MID
  | HIGH
  | HIGHEST
deriving DecidableEq

/-- Numeric value of a priority, as in the source IntEnum. -/
def Priority.toNat : Priority → Nat
  | .LOWEST => 0
  | .LOWER => 1
  | .LOW => 2
  | .MID => 3
  | .HIGH => 4
  | .HIGHEST => 5

/-- Event types (class ET); ET.str gives the wire-field string tag. -/
inductive ET
  | ENABLE
  | PRE_ENABLE
  | NO_ENTRY
  | WARNING
  | USER_DISABLE
  | SOFT_DISABLE
  | IMMEDIATE_DISABLE
  | PERMANENT
deriving DecidableEq

/-- The string value of an event-type tag in the source class ET. -/
def ET.str : ET → String
  | .ENABLE => "enable"
  | .PRE_ENABLE => "preEnable"
  | .NO_ENTRY => "noEntry"
  | .WARNING => "warning"
  | .USER_DISABLE => "userDisable"
  | .SOFT_DISABLE => "softDisable"
  | .IMMEDIATE_DISABLE => "immediateDisable"
  | .PERMANENT => "permanent"

/-- AlertStatus values of log.ControlsState.AlertStatus used by this module. -/
inductive AlertStatus
  | normal
  | userPrompt
  | critical
deriving DecidableEq

/-- AlertSize values of log.ControlsState.AlertSize used by this module. -/
inductive AlertSize
  | none
  | small
  | mid
  | full
deriving DecidableEq

/-- VisualAlert cues of car.CarControl.HUDControl used by this module. -/
inductive VisualAlert
  | none
  | fcw
  | steerRequired
  | brakePressed
  | ldw
deriving DecidableEq

/-- AudibleAlert cues of car.CarControl.HUDControl used by this module. -/
inductive AudibleAlert
  | none
  | engage
  | disengage
  | refuse
  | warningSoft
  | warningImmediate
  | prompt
  | promptRepeat
  | promptDistracted
deriving DecidableEq

/-- Modelled from the spec: the GPS hardware class (log.PandaState.PandaType,
external wire schema); only uno and dos are distinguished by this module. -/
inductive PandaType
  | uno
  | dos
  | other
deriving DecidableEq

/-- Event identifiers (car.CarEvent.EventName, external wire schema): one
constructor per enumerant this module's catalog references.  Modelled from
the spec: the wire schema also defines identifiers this module never
references — reported identifiers with no catalog entry — represented here
by the externalOnly family. -/
inductive EventName
  | stockFcw
  | joystickDebug
  | controlsInitializing
  | startup
  | startupMaster
  | startupNoControl
  | startupNoCar
  | startupNoFw
  | dashcamMode
  | invalidLkasSetting
  | cruiseMismatch
  | communityFeatureDisallowed
  | carUnrecognized
  | stockAeb
  | fcw
  | ldw
  | gasPressed
  | vehicleModelInvalid
  | steerTempUnavailableSilent
  | preDriverDistracted
  | promptDriverDistracted
  | driverDistracted
  | preDriverUnresponsive
  | promptDriverUnresponsive
  | driverUnresponsive
  | manualRestart
  | resumeRequired
  | belowSteerSpeed
  | preLaneChangeLeft
  | preLaneChangeRight
  | laneChangeBlocked
  | laneChange
  | steerSaturated
  | fanMalfunction
  | cameraMalfunction
  | gpsMalfunction
  | localizerMalfunction
  | pcmEnable
  | buttonEnable
  | pcmDisable
  | buttonCancel
  | brakeHold
  | parkBrake
  | pedalPressed
  | wrongCarMode
  | wrongCruiseMode
  | steerTempUnavailable
  | outOfSpace
  | belowEngageSpeed
  | sensorDataInvalid
  | noGps
  | soundsUnavailable
  | tooDistracted
  | overheat
  | wrongGear
  | calibrationInvalid
  | calibrationIncomplete
  | doorOpen
  | seatbeltNotLatched
  | espDisabled
  | lowBattery
  | commIssue
  | processNotRunning
  | radarFault
  | modeldLagging
  | posenetInvalid
  | deviceFalling
  | lowMemory
  | highCpuUsage
  | accFaulted
  | controlsMismatch
  | roadCameraError
  | driverCameraError
  | wideRoadCameraError
  | usbError
  | canError
  | steerUnavailable
  | brakeUnavailable
  | reverseGear
  | cruiseDisabled
  | plannerError
  | relayMalfunction
  | noTarget
  | speedTooLow
  | speedTooHigh
  | lowSpeedLockout
  | externalOnly (n : Nat)

/-- Injective numeric tag of an event identifier (used only to decide
equality of identifiers; the wire schema's numeric values are external). -/
def EventName.tag : EventName → Nat
  | .stockFcw => 0
  | .joystickDebug => 1
  | .controlsInitializing => 2
  | .startup => 3
  | .startupMaster => 4
  | .startupNoControl => 5
  | .startupNoCar => 6
  | .startupNoFw => 7
  | .dashcamMode => 8
  | .invalidLkasSetting => 9
  | .cruiseMismatch => 10
  | .communityFeatureDisallowed => 11
  | .carUnrecognized => 12
  | .stockAeb => 13
  | .fcw => 14
  | .ldw => 15
  | .gasPressed => 16
  | .vehicleModelInvalid => 17
  | .steerTempUnavailableSilent => 18
  | .preDriverDistracted => 19
  | .promptDriverDistracted => 20
  | .driverDistracted => 21
  | .preDriverUnresponsive => 22
  | .promptDriverUnresponsive => 23
  | .driverUnresponsive => 24
  | .manualRestart => 25
  | .resumeRequired => 26
  | .belowSteerSpeed => 27
  | .preLaneChangeLeft => 28
  | .preLaneChangeRight => 29
  | .laneChangeBlocked => 30
  | .laneChange => 31
  | .steerSaturated => 32
  | .fanMalfunction => 33
  | .cameraMalfunction => 34
  | .gpsMalfunction => 35
  | .localizerMalfunction => 36
  | .pcmEnable => 37
  | .buttonEnable => 38
  | .pcmDisable => 39
  | .buttonCancel => 40
  | .brakeHold => 41
  | .parkBrake => 42
  | .pedalPressed => 43
  | .wrongCarMode => 44
  | .wrongCruiseMode => 45
  | .steerTempUnavailable => 46
  | .outOfSpace => 47
  | .belowEngageSpeed => 48
  | .sensorDataInvalid => 49
  | .noGps => 50
  | .soundsUnavailable => 51
  | .tooDistracted => 52
  | .overheat => 53
  | .wrongGear => 54
  | .calibrationInvalid => 55
  | .calibrationIncomplete => 56
  | .doorOpen => 57
  | .seatbeltNotLatched => 58
  | .espDisabled => 59
  | .lowBattery => 60
  | .commIssue => 61
  | .processNotRunning => 62
  | .radarFault => 63
  | .modeldLagging => 64
  | .posenetInvalid => 65
  | .deviceFalling => 66
  | .lowMemory => 67
  | .highCpuUsage => 68
  | .accFaulted => 69
  | .controlsMismatch => 70
  | .roadCameraError => 71
  | .driverCameraError => 72
  | .wideRoadCameraError => 73
  | .usbError => 74
  | .canError => 75
  | .steerUnavailable => 76
  | .brakeUnavailable => 77
  | .reverseGear => 78
  | .cruiseDisabled => 79
  | .plannerError => 80
  | .relayMalfunction => 81
  | .noTarget => 82
  | .speedTooLow => 83
  | .lowSpeedLockout => 84
  | .speedTooHigh => 85
  | .externalOnly n => n + 86

/-- Left inverse of the numeric tag. -/
def EventName.untag : Nat → EventName
  | 0 => .stockFcw
  | 1 => .joystickDebug
  | 2 => .controlsInitializing
  | 3 => .startup
  | 4 => .startupMaster
  | 5 => .startupNoControl
  | 6 => .startupNoCar
  | 7 => .startupNoFw
  | 8 => .dashcamMode
  | 9 => .invalidLkasSetting
  | 10 => .cruiseMismatch
  | 11 => .communityFeatureDisallowed
  | 12 => .carUnrecognized
  | 13 => .stockAeb
  | 14 => .fcw
  | 15 => .ldw
  | 16 => .gasPressed
  | 17 => .vehicleModelInvalid
  | 18 => .steerTempUnavailableSilent
  | 19 => .preDriverDistracted
  | 20 => .promptDriverDistracted
  | 21 => .driverDistracted
  | 22 => .preDriverUnresponsive
  | 23 => .promptDriverUnresponsive
  | 24 => .driverUnresponsive
  | 25 => .manualRestart
  | 26 => .resumeRequired
  | 27 => .belowSteerSpeed
  | 28 => .preLaneChangeLeft
  | 29 => .preLaneChangeRight
  | 30 => .laneChangeBlocked
  | 31 => .laneChange
  | 32 => .steerSaturated
  | 33 => .fanMalfunction
  | 34 => .cameraMalfunction
  | 35 => .gpsMalfunction
  | 36 => .localizerMalfunction
  | 37 => .pcmEnable
  | 38 => .buttonEnable
  | 39 => .pcmDisable
  | 40 => .buttonCancel
  | 41 => .brakeHold
  | 42 => .parkBrake
  | 43 => .pedalPressed
  | 44 => .wrongCarMode
  | 45 => .wrongCruiseMode
  | 46 => .steerTempUnavailable
  | 47 => .outOfSpace
  | 48 => .belowEngageSpeed
  | 49 => .sensorDataInvalid
  | 50 => .noGps
  | 51 => .soundsUnavailable
  | 52 => .tooDistracted
  | 53 => .overheat
  | 54 => .wrongGear
  | 55 => .calibrationInvalid
  | 56 => .calibrationIncomplete
  | 57 => .doorOpen
  | 58 => .seatbeltNotLatched
  | 59 => .espDisabled
  | 60 => .lowBattery
  | 61 => .commIssue
  | 62 => .processNotRunning
  | 63 => .radarFault
  | 64 => .modeldLagging
  | 65 => .posenetInvalid
  | 66 => .deviceFalling
  | 67 => .lowMemory
  | 68 => .highCpuUsage
  | 69 => .accFaulted
  | 70 => .controlsMismatch
  | 71 => .roadCameraError
  | 72 => .driverCameraError
  | 73 => .wideRoadCameraError
  | 74 => .usbError
  | 75 => .canError
  | 76 => .steerUnavailable
  | 77 => .brakeUnavailable
  | 78 => .reverseGear
  | 79 => .cruiseDisabled
  | 80 => .plannerError
  | 81 => .relayMalfunction
  | 82 => .noTarget
  | 83 => .speedTooLow
  | 84 => .lowSpeedLockout
  | 85 => .speedTooHigh
  | n + 86 => .externalOnly n

theorem EventName.untag_tag (e : EventName) : EventName.untag e.tag = e := by
  cases e <;> rfl

theorem EventName.tag_injective : Function.Injective EventName.tag := by
  intro a b h
  have h2 := congrArg EventName.untag h
  rwa [EventName.untag_tag, EventName.untag_tag] at h2

instance : DecidableEq EventName := fun a b =>
  decidable_of_iff (EventName.tag a = EventName.tag b)
    ⟨fun h => EventName.tag_injective h, fun h => congrArg EventName.tag h⟩

/-- EVENT_NAME: event name string from the enum (the inverse enum table
built at module load). -/
def EVENT_NAME : EventName → String
  | .stockFcw => "stockFcw"
  | .joystickDebug => "joystickDebug"
  | .controlsInitializing => "controlsInitializing"
  | .startup => "startup"
  | .startupMaster => "startupMaster"
  | .startupNoControl => "startupNoControl"
  | .startupNoCar => "startupNoCar"
  | .startupNoFw => "startupNoFw"
  | .dashcamMode => "dashcamMode"
  | .invalidLkasSetting => "invalidLkasSetting"
  | .cruiseMismatch => "cruiseMismatch"
  | .communityFeatureDisallowed => "communityFeatureDisallowed"
  | .carUnrecognized => "carUnrecognized"
  | .stockAeb => "stockAeb"
  | .fcw => "fcw"
  | .ldw => "ldw"
  | .gasPressed => "gasPressed"
  | .vehicleModelInvalid => "vehicleModelInvalid"
  | .steerTempUnavailableSilent => "steerTempUnavailableSilent"
  | .preDriverDistracted => "preDriverDistracted"
  | .promptDriverDistracted => "promptDriverDistracted"
  | .driverDistracted => "driverDistracted"
  | .preDriverUnresponsive => "preDriverUnresponsive"
  | .promptDriverUnresponsive => "promptDriverUnresponsive"
  | .driverUnresponsive => "driverUnresponsive"
  | .manualRestart => "manualRestart"
  | .resumeRequired => "resumeRequired"
  | .belowSteerSpeed => "belowSteerSpeed"
  | .preLaneChangeLeft => "preLaneChangeLeft"
  | .preLaneChangeRight => "preLaneChangeRight"
  | .laneChangeBlocked => "laneChangeBlocked"
  | .laneChange => "laneChange"
  | .steerSaturated => "steerSaturated"
  | .fanMalfunction => "fanMalfunction"
  | .cameraMalfunction => "cameraMalfunction"
  | .gpsMalfunction => "gpsMalfunction"
  | .localizerMalfunction => "localizerMalfunction"
  | .pcmEnable => "pcmEnable"
  | .buttonEnable => "buttonEnable"
  | .pcmDisable => "pcmDisable"
  | .buttonCancel => "buttonCancel"
  | .brakeHold => "brakeHold"
  | .parkBrake => "parkBrake"
  | .pedalPressed => "pedalPressed"
  | .wrongCarMode => "wrongCarMode"
  | .wrongCruiseMode => "wrongCruiseMode"
  | .steerTempUnavailable => "steerTempUnavailable"
  | .outOfSpace => "outOfSpace"
  | .belowEngageSpeed => "belowEngageSpeed"
  | .sensorDataInvalid => "sensorDataInvalid"
  | .noGps => "noGps"
  | .soundsUnavailable => "soundsUnavailable"
  | .tooDistracted => "tooDistracted"
  | .overheat => "overheat"
  | .wrongGear => "wrongGear"
  | .calibrationInvalid => "calibrationInvalid"
  | .calibrationIncomplete => "calibrationIncomplete"
  | .doorOpen => "doorOpen"
  | .seatbeltNotLatched => "seatbeltNotLatched"
  | .espDisabled => "espDisabled"
  | .lowBattery => "lowBattery"
  | .commIssue => "commIssue"
  | .processNotRunning => "processNotRunning"
  | .radarFault => "radarFault"
  | .modeldLagging => "modeldLagging"
  | .posenetInvalid => "posenetInvalid"
  | .deviceFalling => "deviceFalling"
  | .lowMemory => "lowMemory"
  | .highCpuUsage => "highCpuUsage"
  | .accFaulted => "accFaulted"
  | .controlsMismatch => "controlsMismatch"
  | .roadCameraError => "roadCameraError"
  | .driverCameraError => "driverCameraError"
  | .wideRoadCameraError => "wideRoadCameraError"
  | .usbError => "usbError"
  | .canError => "canError"
  | .steerUnavailable => "steerUnavailable"
  | .brakeUnavailable => "brakeUnavailable"
  | .reverseGear => "reverseGear"
  | .cruiseDisabled => "cruiseDisabled"
  | .plannerError => "plannerError"
  | .relayMalfunction => "relayMalfunction"
  | .noTarget => "noTarget"
  | .speedTooLow => "speedTooLow"
  | .speedTooHigh => "speedTooHigh"
  | .lowSpeedLockout => "lowSpeedLockout"
  | .externalOnly n => "external" ++ toString n

/-- Modelled from the spec: the read-only vehicle-parameter snapshot
(the car.CarParams fields this module reads). -/
structure CarParams where
  minEnableSpeed : ℚ
  minSteerSpeed : ℚ
  carName : String
deriving DecidableEq

/-- Modelled from the spec: the live subscribed-signal snapshot (the
messaging.SubMaster fields this module reads, flattened: calPerc from
liveCalibration, pandaType from peripheralState, axes from testJoystick). -/
structure SubMaster where
  calPerc : Int
  pandaType : PandaType
  axes : List ℚ
deriving DecidableEq

/-- An alert value (class Alert).  duration is stored in ticks as in the
source constructor; alert_type and event_type are the fields the engine
stamps at evaluation time. -/
structure Alert where
  alert_text_1 : String
  alert_text_2 : String
  alert_status : AlertStatus
  alert_size : AlertSize
  priority : Priority
  visual_alert : VisualAlert
  audible_alert : AudibleAlert
  duration : Int
  alert_rate : ℚ
  creation_delay : ℚ
  alert_type : String
  event_type : Option ET
deriving DecidableEq

/-- Alert.__init__: the requested duration in seconds is converted to a
tick count; alert_type starts empty and event_type unset. -/
def Alert.make (alert_text_1 alert_text_2 : String) (alert_status : AlertStatus)
    (alert_size : AlertSize) (priority : Priority) (visual_alert : VisualAlert)
    (audible_alert : AudibleAlert) (duration alert_rate creation_delay : ℚ) : Alert :=
  { alert_text_1 := alert_text_1
    alert_text_2 := alert_text_2
    alert_status := alert_status
    alert_size := alert_size
    priority := priority
    visual_alert := visual_alert
    audible_alert := audible_alert
    duration := pyInt (duration / DT_CTRL)
    alert_rate := alert_rate
    creation_delay := creation_delay
    alert_type := ""
    event_type := none }

/-- Alert.__gt__: comparison by priority only. -/
def Alert.gt (a alert2 : Alert) : Bool :=
  decide (alert2.priority.toNat < a.priority.toNat)

/-- NoEntryAlert subclass constructor (visual_alert defaults to none at
the call sites that omit it). -/
def NoEntryAlert (alert_text_2 : String) (visual_alert : VisualAlert) : Alert :=
  Alert.make (tr ("SDPilot Unavailable")) alert_text_2 AlertStatus.normal
    AlertSize.mid Priority.LOW visual_alert AudibleAlert.refuse 3 0 0

/-- SoftDisableAlert subclass constructor. -/
def SoftDisableAlert (alert_text_2 : String) : Alert :=
  Alert.make (tr ("TAKE CONTROL IMMEDIATELY")) alert_text_2
    AlertStatus.userPrompt AlertSize.full
    Priority.MID VisualAlert.steerRequired
    AudibleAlert.warningSoft 2 0 0

/-- UserSoftDisableAlert subclass constructor: SoftDisableAlert with the
first line overridden. -/
def UserSoftDisableAlert (alert_text_2 : String) : Alert :=
  { SoftDisableAlert alert_text_2 with alert_text_1 := tr ("SDPilot will disengage") }

/-- ImmediateDisableAlert subclass constructor. -/
def ImmediateDisableAlert (alert_text_2 : String) : Alert :=
  Alert.make (tr ("TAKE CONTROL IMMEDIATELY")) alert_text_2
    AlertStatus.critical AlertSize.full
    Priority.HIGHEST VisualAlert.steerRequired
    AudibleAlert.warningImmediate 4 0 0

/-- EngagementAlert subclass constructor. -/
def EngagementAlert (audible_alert : AudibleAlert) : Alert :=
  Alert.make ("") ("")
    AlertStatus.normal AlertSize.none
    Priority.MID VisualAlert.none
    audible_alert 0.2 0 0

/-- NormalPermanentAlert subclass constructor (source defaults:
alert_text_2 empty, duration 0.2, priority LOWER, creation_delay 0 are
passed explicitly at each call site below). -/
def NormalPermanentAlert (alert_text_1 alert_text_2 : String) (duration : ℚ)
    (priority : Priority) (creation_delay : ℚ) : Alert :=
  Alert.make alert_text_1 alert_text_2 AlertStatus.normal
    (if alert_text_2.length = 0 then AlertSize.small else AlertSize.mid)
    priority VisualAlert.none AudibleAlert.none duration 0 creation_delay

/-- StartupAlert subclass constructor (source defaults: generic safety
reminder second line, normal status; passed explicitly at call sites). -/
def StartupAlert (alert_text_1 alert_text_2 : String) (alert_status : AlertStatus) : Alert :=
  Alert.make alert_text_1 alert_text_2
    alert_status AlertSize.mid
    Priority.LOWER VisualAlert.none AudibleAlert.none 2.5 0 0

/-- The default second line of StartupAlert in the source signature. -/
def startupDefaultText2 : String := tr ("Always keep hands on wheel and eyes on road")

/-- Modelled from the spec: metric unit-conversion constant of the
external Conversions helper (excluded collaborator). -/
def MS_TO_KPH : ℚ := 3.6

/-- Modelled from the spec: imperial unit-conversion constant of the
external Conversions helper (excluded collaborator). -/
def MS_TO_MPH : ℚ := 2.2369362920544

/-- Modelled from the spec: the minimum calibration speed constant of the
external calibration subsystem (15 mph in metres per second). -/
def MIN_SPEED_FILTER : ℚ := 15 * 0.44704

/-- get_display_speed helper. -/
def get_display_speed (speed_ms : ℚ) (metric : Bool) : String :=
  let speed : Int := pyRound (speed_ms * (if metric then MS_TO_KPH else MS_TO_MPH))
  let unit : String := if metric then "km/h" else "mph"
  toString speed ++ " " ++ unit

/-- Python exceptions that can escape the engine: the KeyError of a
direct catalog index on an uncatalogued identifier, and the ValueError of
joystick_alert's axes unpacking. -/
inductive PyErr
  | keyError
  | valueError
deriving DecidableEq

/-- AlertCallbackType: the source annotation of an alert callback — an
alert-producing function of the live context. -/
abbrev AlertCallbackType := CarParams → SubMaster → Bool → Int → Alert

/-- What invoking a catalog callback actually yields: the promised Alert,
or a raised exception (Python lets a callback raise despite the
annotation; joystick_alert does, on a one-element axes list). -/
abbrev CallbackOutcome := Except PyErr Alert

/-- A callback whose body cannot raise, embedded into the fallible
callback space: a normal Python return is an ok outcome. -/
def totalCallback (f : AlertCallbackType) :
    CarParams → SubMaster → Bool → Int → CallbackOutcome :=
  fun CP sm metric soft_disable_time => Except.ok (f CP sm metric soft_disable_time)

/-- soft_disable_alert callback factory: escalate to ImmediateDisableAlert
when fewer than half a second of soft-disable time remains. -/
def soft_disable_alert (alert_text_2 : String) : AlertCallbackType :=
  fun _CP _sm _metric soft_disable_time =>
    if soft_disable_time < pyInt (0.5 / DT_CTRL) then ImmediateDisableAlert alert_text_2
    else SoftDisableAlert alert_text_2

/-- user_soft_disable_alert callback factory. -/
def user_soft_disable_alert (alert_text_2 : String) : AlertCallbackType :=
  fun _CP _sm _metric soft_disable_time =>
    if soft_disable_time < pyInt (0.5 / DT_CTRL) then ImmediateDisableAlert alert_text_2
    else UserSoftDisableAlert alert_text_2

/-- below_engage_speed_alert callback. -/
def below_engage_speed_alert : AlertCallbackType :=
  fun CP _sm metric _soft_disable_time =>
    NoEntryAlert ("Speed Below " ++ get_display_speed CP.minEnableSpeed metric) VisualAlert.none

/-- below_steer_speed_alert callback (the %s template resolved by string
substitution). -/
def below_steer_speed_alert : AlertCallbackType :=
  fun CP _sm metric _soft_disable_time =>
    Alert.make ((tr ("Steer Unavailable Below %s")).replace ("%s") (get_display_speed CP.minSteerSpeed metric))
      ("")
      AlertStatus.userPrompt AlertSize.small
      Priority.MID VisualAlert.steerRequired AudibleAlert.prompt 0.4 0 0

/-- calibration_incomplete_alert callback (%d and %% templates resolved by
string substitution). -/
def calibration_incomplete_alert : AlertCallbackType :=
  fun _CP sm metric _soft_disable_time =>
    Alert.make (((tr ("Calibration in Progress: %d%%")).replace ("%d") (toString sm.calPerc)).replace ("%%") ("%"))
      ((tr ("Drive Above %s")).replace ("%s") (get_display_speed MIN_SPEED_FILTER metric))
      AlertStatus.normal AlertSize.mid
      Priority.LOWEST VisualAlert.none AudibleAlert.none 0.2 0 0

/-- no_gps_alert callback. -/
def no_gps_alert : AlertCallbackType :=
  fun _CP sm _metric _soft_disable_time =>
    Alert.make (tr ("Poor GPS reception"))
      (if sm.pandaType = PandaType.uno ∨ sm.pandaType = PandaType.dos
        then tr ("If sky is visible, contact support")
        else tr ("Check GPS antenna placement"))
      AlertStatus.normal AlertSize.mid
      Priority.LOWER VisualAlert.none AudibleAlert.none 0.2 0 300

/-- wrong_car_mode_alert callback. -/
def wrong_car_mode_alert : AlertCallbackType :=
  fun CP _sm _metric _soft_disable_time =>
    let text := if CP.carName = "honda" then tr ("Main Switch Off") else tr ("Cruise Mode Disabled")
    NoEntryAlert text VisualAlert.none

/-- joystick_alert callback.  The source unpacks the first two joystick
axes (gb, steer = list(axes)[:2] if len(axes) else (0., 0.)): an empty
axes list defaults both to zero, a one-element list raises ValueError at
the unpacking, and two or more axes take the first two; the two-slot %s
template is unfolded under the identity translation. -/
def joystick_alert : CarParams → SubMaster → Bool → Int → CallbackOutcome :=
  fun _CP sm _metric _soft_disable_time =>
    match sm.axes with
    | [_g] => Except.error PyErr.valueError
    | g :: s :: _ =>
      Except.ok (NormalPermanentAlert (tr ("Joystick Mode"))
        ("Gas: " ++ toString (pyRound (g * 100)) ++ "%, Steer: " ++ toString (pyRound (s * 100)) ++ "%")
        0.2 Priority.LOWER 0)
    | [] =>
      Except.ok (NormalPermanentAlert (tr ("Joystick Mode"))
        ("Gas: " ++ toString (pyRound ((0 : ℚ) * 100)) ++ "%, Steer: " ++ toString (pyRound ((0 : ℚ) * 100)) ++ "%")
        0.2 Priority.LOWER 0)

/-- A catalog slot: a fixed Alert or an alert-producing callback
(Union[Alert, AlertCallbackType] in the source); a callback is carried as
what invoking it yields, so that its exception path is kept. -/
inductive CatalogVal
  | fixed : Alert → CatalogVal
  | callback : (CarParams → SubMaster → Bool → Int → CallbackOutcome) → CatalogVal

/-- One event's catalog entry: its ordered event-type-to-slot dict. -/
abbrev CatalogEntry := List (ET × CatalogVal)

/-- The catalog: the ordered event-identifier-to-entry dict. -/
abbrev Catalog := List (EventName × CatalogEntry)

/-- The module-level EVENTS dict, transcribed entry by entry in source
order, with the subclass-constructor default arguments written out. -/
def EVENTS : Catalog := [
  (EventName.stockFcw, []),
  (EventName.joystickDebug, [
    (ET.WARNING, CatalogVal.callback joystick_alert),
    (ET.PERMANENT, CatalogVal.fixed (NormalPermanentAlert (tr ("Joystick Mode")) ("") 0.2 Priority.LOWER 0))]),
  (EventName.controlsInitializing, [
    (ET.NO_ENTRY, CatalogVal.fixed (NoEntryAlert (tr ("System Initializing")) VisualAlert.none))]),
  (EventName.startup, [
    (ET.PERMANENT, CatalogVal.fixed (StartupAlert (tr ("Be ready to take over at any time")) startupDefaultText2 AlertStatus.normal))]),
  (EventName.startupMaster, [
    (ET.PERMANENT, CatalogVal.fixed (StartupAlert (tr ("WARNING: This branch is not tested")) startupDefaultText2 AlertStatus.userPrompt))]),
  (EventName.startupNoControl, [
    (ET.PERMANENT, CatalogVal.fixed (StartupAlert (tr ("Dashcam mode")) startupDefaultText2 AlertStatus.normal))]),
  (EventName.startupNoCar, [
    (ET.PERMANENT, CatalogVal.fixed (StartupAlert (tr ("Dashcam mode for unsupported car")) startupDefaultText2 AlertStatus.normal))]),
  (EventName.startupNoFw, [
    (ET.PERMANENT, CatalogVal.fixed (StartupAlert (tr ("Car Unrecognized")) (tr ("Check comma power connections")) AlertStatus.userPrompt))]),
  (EventName.dashcamMode, [
    (ET.PERMANENT, CatalogVal.fixed (NormalPermanentAlert (tr ("Dashcam Mode")) ("") 0.2 Priority.LOWEST 0))]),
  (EventName.invalidLkasSetting, [
    (ET.PERMANENT, CatalogVal.fixed (NormalPermanentAlert (tr ("Stock LKAS is on")) (tr ("Turn off stock LKAS to engage")) 0.2 Priority.LOWER 0))]),
  (EventName.cruiseMismatch, []),
  (EventName.communityFeatureDisallowed, [
    (ET.PERMANENT, CatalogVal.fixed (NormalPermanentAlert (tr ("SDPilot Unavailable")) (tr ("Enable Community Features in Settings")) 0.2 Priority.LOWER 0))]),
  (EventName.carUnrecognized, [
    (ET.PERMANENT, CatalogVal.fixed (NormalPermanentAlert (tr ("Dashcam Mode")) (tr ("Car Unrecognized")) 0.2 Priority.LOWEST 0))]),
  (EventName.stockAeb, [
    (ET.PERMANENT, CatalogVal.fixed (Alert.make (tr ("BRAKE!")) (tr ("Stock AEB: Risk of Collision"))
      AlertStatus.critical AlertSize.full Priority.HIGHEST VisualAlert.fcw AudibleAlert.none 2 0 0)),
    (ET.NO_ENTRY, CatalogVal.fixed (NoEntryAlert (tr ("Stock AEB: Risk of Collision")) VisualAlert.none))]),
  (EventName.fcw, [
    (ET.PERMANENT, CatalogVal.fixed (Alert.make (tr ("BRAKE!")) (tr ("Risk of Collision"))
      AlertStatus.critical AlertSize.full Priority.HIGHEST VisualAlert.fcw AudibleAlert.warningSoft 2 0 0))]),
  (EventName.ldw, [
    (ET.PERMANENT, CatalogVal.fixed (Alert.make (tr ("Lane Departure Detected")) ("")
      AlertStatus.userPrompt AlertSize.small Priority.LOW VisualAlert.ldw AudibleAlert.prompt 3 0 0))]),
  (EventName.gasPressed, [
    (ET.PRE_ENABLE, CatalogVal.fixed (Alert.make (tr ("Release Gas Pedal to Engage")) ("")
      AlertStatus.normal AlertSize.small Priority.LOWEST VisualAlert.none AudibleAlert.none 0.1 0 1))]),
  (EventName.vehicleModelInvalid, [
    (ET.NO_ENTRY, CatalogVal.fixed (NoEntryAlert (tr ("Vehicle Parameter Identification Failed")) VisualAlert.none)),
    (ET.SOFT_DISABLE, CatalogVal.callback (totalCallback (soft_disable_alert (tr ("Vehicle Parameter Identification Failed")))))]),
  (EventName.steerTempUnavailableSilent, [
    (ET.WARNING, CatalogVal.fixed (Alert.make (tr ("Steering Temporarily Unavailable")) ("")
      AlertStatus.userPrompt AlertSize.small Priority.LOW VisualAlert.steerRequired AudibleAlert.prompt 1 0 0))]),
  (EventName.preDriverDistracted, [
    (ET.WARNING, CatalogVal.fixed (Alert.make (tr ("Pay Attention")) ("")
      AlertStatus.normal AlertSize.small Priority.LOW VisualAlert.none AudibleAlert.none 0.1 0 0))]),
  (EventName.promptDriverDistracted, [
    (ET.WARNING, CatalogVal.fixed (Alert.make (tr ("Pay Attention")) (tr ("Driver Distracted"))
      AlertStatus.userPrompt AlertSize.mid Priority.MID VisualAlert.steerRequired AudibleAlert.promptDistracted 0.1 0 0))]),
  (EventName.driverDistracted, [
    (ET.WARNING, CatalogVal.fixed (Alert.make (tr ("DISENGAGE IMMEDIATELY")) (tr ("Driver Distracted"))
      AlertStatus.critical AlertSize.full Priority.HIGH VisualAlert.steerRequired AudibleAlert.warningImmediate 0.1 0 0))]),
  (EventName.preDriverUnresponsive, [
    (ET.WARNING, CatalogVal.fixed (Alert.make (tr ("Touch Steering Wheel: No Face Detected")) ("")
      AlertStatus.normal AlertSize.small Priority.LOW VisualAlert.steerRequired AudibleAlert.none 0.1 0.75 0))]),
  (EventName.promptDriverUnresponsive, [
    (ET.WARNING, CatalogVal.fixed (Alert.make (tr ("Touch Steering Wheel")) (tr ("Driver Unresponsive"))
      AlertStatus.userPrompt AlertSize.mid Priority.MID VisualAlert.steerRequired AudibleAlert.promptDistracted 0.1 0 0))]),
  (EventName.driverUnresponsive, [
    (ET.WARNING, CatalogVal.fixed (Alert.make (tr ("DISENGAGE IMMEDIATELY")) (tr ("Driver Unresponsive"))
      AlertStatus.critical AlertSize.full Priority.HIGH VisualAlert.steerRequired AudibleAlert.warningImmediate 0.1 0 0))]),
  (EventName.manualRestart, [
    (ET.WARNING, CatalogVal.fixed (Alert.make (tr ("TAKE CONTROL")) (tr ("Resume Driving Manually"))
      AlertStatus.userPrompt AlertSize.mid Priority.LOW VisualAlert.none AudibleAlert.none 0.2 0 0))]),
  (EventName.resumeRequired, [
    (ET.WARNING, CatalogVal.fixed (Alert.make (tr ("STOPPED")) (tr ("Press Resume to Go"))
      AlertStatus.userPrompt AlertSize.mid Priority.LOW VisualAlert.none AudibleAlert.none 0.2 0 0))]),
  (EventName.belowSteerSpeed, [
    (ET.WARNING, CatalogVal.callback (totalCallback below_steer_speed_alert))]),
  (EventName.preLaneChangeLeft, [
    (ET.WARNING, CatalogVal.fixed (Alert.make (tr ("Steer Left to Start Lane Change Once Safe")) ("")
      AlertStatus.normal AlertSize.small Priority.LOW VisualAlert.none AudibleAlert.none 0.1 0.75 0))]),
  (EventName.preLaneChangeRight, [
    (ET.WARNING, CatalogVal.fixed (Alert.make (tr ("Steer Right to Start Lane Change Once Safe")) ("")
      AlertStatus.normal AlertSize.small Priority.LOW VisualAlert.none AudibleAlert.none 0.1 0.75 0))]),
  (EventName.laneChangeBlocked, [
    (ET.WARNING, CatalogVal.fixed (Alert.make (tr ("Car Detected in Blindspot")) ("")
      AlertStatus.userPrompt AlertSize.small Priority.LOW VisualAlert.none AudibleAlert.prompt 0.1 0 0))]),
  (EventName.laneChange, [
    (ET.WARNING, CatalogVal.fixed (Alert.make (tr ("Changing Lanes")) ("")
      AlertStatus.normal AlertSize.small Priority.LOW VisualAlert.none AudibleAlert.none 0.1 0 0))]),
  (EventName.steerSaturated, [
    (ET.WARNING, CatalogVal.fixed (Alert.make (tr ("Take Control")) (tr ("Turn Exceeds Steering Limit"))
      AlertStatus.userPrompt AlertSize.mid Priority.LOW VisualAlert.steerRequired AudibleAlert.promptRepeat 1 0 0))]),
  (EventName.fanMalfunction, [
    (ET.PERMANENT, CatalogVal.fixed (NormalPermanentAlert (tr ("Fan Malfunction")) (tr ("Contact Support")) 0.2 Priority.LOWER 0))]),
  (EventName.cameraMalfunction, [
    (ET.PERMANENT, CatalogVal.fixed (NormalPermanentAlert (tr ("Camera Malfunction")) (tr ("Contact Support")) 0.2 Priority.LOWER 0))]),
  (EventName.gpsMalfunction, [
    (ET.PERMANENT, CatalogVal.fixed (NormalPermanentAlert (tr ("GPS Malfunction")) (tr ("Contact Support")) 0.2 Priority.LOWER 0))]),
  (EventName.localizerMalfunction, [
    (ET.PERMANENT, CatalogVal.fixed (NormalPermanentAlert (tr ("Sensor Malfunction")) (tr ("Contact Support")) 0.2 Priority.LOWER 0))]),
  (EventName.pcmEnable, [
    (ET.ENABLE, CatalogVal.fixed (EngagementAlert AudibleAlert.engage))]),
  (EventName.buttonEnable, [
    (ET.ENABLE, CatalogVal.fixed (EngagementAlert AudibleAlert.engage))]),
  (EventName.pcmDisable, [
    (ET.USER_DISABLE, CatalogVal.fixed (EngagementAlert AudibleAlert.disengage))]),
  (EventName.buttonCancel, [
    (ET.USER_DISABLE, CatalogVal.fixed (EngagementAlert AudibleAlert.disengage))]),
  (EventName.brakeHold, [
    (ET.USER_DISABLE, CatalogVal.fixed (EngagementAlert AudibleAlert.disengage)),
    (ET.NO_ENTRY, CatalogVal.fixed (NoEntryAlert (tr ("Brake Hold Active")) VisualAlert.none))]),
  (EventName.parkBrake, [
    (ET.USER_DISABLE, CatalogVal.fixed (EngagementAlert AudibleAlert.disengage)),
    (ET.NO_ENTRY, CatalogVal.fixed (NoEntryAlert (tr ("Parking Brake Engaged")) VisualAlert.none))]),
  (EventName.pedalPressed, [
    (ET.USER_DISABLE, CatalogVal.fixed (EngagementAlert AudibleAlert.disengage)),
    (ET.NO_ENTRY, CatalogVal.fixed (NoEntryAlert (tr ("Pedal Pressed")) VisualAlert.brakePressed))]),
  (EventName.wrongCarMode, [
    (ET.USER_DISABLE, CatalogVal.fixed (EngagementAlert AudibleAlert.disengage)),
    (ET.NO_ENTRY, CatalogVal.callback (totalCallback wrong_car_mode_alert))]),
  (EventName.wrongCruiseMode, [
    (ET.USER_DISABLE, CatalogVal.fixed (EngagementAlert AudibleAlert.disengage)),
    (ET.NO_ENTRY, CatalogVal.fixed (NoEntryAlert (tr ("Adaptive Cruise Disabled")) VisualAlert.none))]),
  (EventName.steerTempUnavailable, [
    (ET.SOFT_DISABLE, CatalogVal.callback (totalCallback (soft_disable_alert (tr ("Steering Temporarily Unavailable"))))),
    (ET.NO_ENTRY, CatalogVal.fixed (NoEntryAlert (tr ("Steering Temporarily Unavailable")) VisualAlert.none))]),
  (EventName.outOfSpace, [
    (ET.PERMANENT, CatalogVal.fixed (NormalPermanentAlert (tr ("Out of Storage")) ("") 0.2 Priority.LOWER 0)),
    (ET.NO_ENTRY, CatalogVal.fixed (NoEntryAlert (tr ("Out of Storage")) VisualAlert.none))]),
  (EventName.belowEngageSpeed, [
    (ET.NO_ENTRY, CatalogVal.callback (totalCallback below_engage_speed_alert))]),
  (EventName.sensorDataInvalid, [
    (ET.PERMANENT, CatalogVal.fixed (Alert.make (tr ("No Data from Device Sensors")) (tr ("Reboot your Device"))
      AlertStatus.normal AlertSize.mid Priority.LOWER VisualAlert.none AudibleAlert.none 0.2 0 1)),
    (ET.NO_ENTRY, CatalogVal.fixed (NoEntryAlert (tr ("No Data from Device Sensors")) VisualAlert.none))]),
  (EventName.noGps, [
    (ET.PERMANENT, CatalogVal.callback (totalCallback no_gps_alert))]),
  (EventName.soundsUnavailable, [
    (ET.PERMANENT, CatalogVal.fixed (NormalPermanentAlert (tr ("Speaker not found")) (tr ("Reboot your Device")) 0.2 Priority.LOWER 0)),
    (ET.NO_ENTRY, CatalogVal.fixed (NoEntryAlert (tr ("Speaker not found")) VisualAlert.none))]),
  (EventName.tooDistracted, [
    (ET.NO_ENTRY, CatalogVal.fixed (NoEntryAlert (tr ("Distraction Level Too High")) VisualAlert.none))]),
  (EventName.overheat, [
    (ET.PERMANENT, CatalogVal.fixed (NormalPermanentAlert (tr ("System Overheated")) ("") 0.2 Priority.LOWER 0)),
    (ET.SOFT_DISABLE, CatalogVal.callback (totalCallback (soft_disable_alert (tr ("System Overheated"))))),
    (ET.NO_ENTRY, CatalogVal.fixed (NoEntryAlert (tr ("System Overheated")) VisualAlert.none))]),
  (EventName.wrongGear, [
    (ET.NO_ENTRY, CatalogVal.fixed (NoEntryAlert (tr ("Gear not D")) VisualAlert.none))]),
  (EventName.calibrationInvalid, [
    (ET.PERMANENT, CatalogVal.fixed (NormalPermanentAlert (tr ("Calibration Invalid")) (tr ("Remount Device and Recalibrate")) 0.2 Priority.LOWER 0)),
    (ET.SOFT_DISABLE, CatalogVal.callback (totalCallback (soft_disable_alert (tr ("Calibration Invalid: Remount Device & Recalibrate"))))),
    (ET.NO_ENTRY, CatalogVal.fixed (NoEntryAlert (tr ("Calibration Invalid: Remount Device & Recalibrate")) VisualAlert.none))]),
  (EventName.calibrationIncomplete, [
    (ET.PERMANENT, CatalogVal.callback (totalCallback calibration_incomplete_alert)),
    (ET.SOFT_DISABLE, CatalogVal.callback (totalCallback (soft_disable_alert (tr ("Calibration in Progress"))))),
    (ET.NO_ENTRY, CatalogVal.fixed (NoEntryAlert (tr ("Calibration in Progress")) VisualAlert.none))]),
  (EventName.doorOpen, [
    (ET.SOFT_DISABLE, CatalogVal.callback (totalCallback (user_soft_disable_alert (tr ("Door Open"))))),
    (ET.NO_ENTRY, CatalogVal.fixed (NoEntryAlert (tr ("Door Open")) VisualAlert.none))]),
  (EventName.seatbeltNotLatched, [
    (ET.SOFT_DISABLE, CatalogVal.callback (totalCallback (user_soft_disable_alert (tr ("Seatbelt Unlatched"))))),
    (ET.NO_ENTRY, CatalogVal.fixed (NoEntryAlert (tr ("Seatbelt Unlatched")) VisualAlert.none))]),
  (EventName.espDisabled, [
    (ET.SOFT_DISABLE, CatalogVal.callback (totalCallback (soft_disable_alert (tr ("ESP Off"))))),
    (ET.NO_ENTRY, CatalogVal.fixed (NoEntryAlert (tr ("ESP Off")) VisualAlert.none))]),
  (EventName.lowBattery, [
    (ET.SOFT_DISABLE, CatalogVal.callback (totalCallback (soft_disable_alert (tr ("Low Battery"))))),
    (ET.NO_ENTRY, CatalogVal.fixed (NoEntryAlert (tr ("Low Battery")) VisualAlert.none))]),
  (EventName.commIssue, [
    (ET.SOFT_DISABLE, CatalogVal.callback (totalCallback (soft_disable_alert (tr ("Communication Issue between Processes"))))),
    (ET.NO_ENTRY, CatalogVal.fixed (NoEntryAlert (tr ("Communication Issue between Processes")) VisualAlert.none))]),
  (EventName.processNotRunning, [
    (ET.NO_ENTRY, CatalogVal.fixed (NoEntryAlert (tr ("System Malfunction: Reboot Your Device")) VisualAlert.none))]),
  (EventName.radarFault, [
    (ET.SOFT_DISABLE, CatalogVal.callback (totalCallback (soft_disable_alert (tr ("Radar Error: Restart the Car"))))),
    (ET.NO_ENTRY, CatalogVal.fixed (NoEntryAlert (tr ("Radar Error: Restart the Car")) VisualAlert.none))]),
  (EventName.modeldLagging, [
    (ET.SOFT_DISABLE, CatalogVal.callback (totalCallback (soft_disable_alert (tr ("Driving model lagging"))))),
    (ET.NO_ENTRY, CatalogVal.fixed (NoEntryAlert (tr ("Driving model lagging")) VisualAlert.none))]),
  (EventName.posenetInvalid, [
    (ET.SOFT_DISABLE, CatalogVal.callback (totalCallback (soft_disable_alert (tr ("Model Output Uncertain"))))),
    (ET.NO_ENTRY, CatalogVal.fixed (NoEntryAlert (tr ("Model Output Uncertain")) VisualAlert.none))]),
  (EventName.deviceFalling, [
    (ET.SOFT_DISABLE, CatalogVal.callback (totalCallback (soft_disable_alert (tr ("Device Fell Off Mount"))))),
    (ET.NO_ENTRY, CatalogVal.fixed (NoEntryAlert (tr ("Device Fell Off Mount")) VisualAlert.none))]),
  (EventName.lowMemory, [
    (ET.SOFT_DISABLE, CatalogVal.callback (totalCallback (soft_disable_alert (tr ("Low Memory: Reboot Your Device"))))),
    (ET.PERMANENT, CatalogVal.fixed (NormalPermanentAlert (tr ("Low Memory")) (tr ("Reboot your Device")) 0.2 Priority.LOWER 0)),
    (ET.NO_ENTRY, CatalogVal.fixed (NoEntryAlert (tr ("Low Memory: Reboot Your Device")) VisualAlert.none))]),
  (EventName.highCpuUsage, [
    (ET.NO_ENTRY, CatalogVal.fixed (NoEntryAlert (tr ("System Malfunction: Reboot Your Device")) VisualAlert.none))]),
  (EventName.accFaulted, [
    (ET.IMMEDIATE_DISABLE, CatalogVal.fixed (ImmediateDisableAlert (tr ("Cruise Faulted")))),
    (ET.PERMANENT, CatalogVal.fixed (NormalPermanentAlert (tr ("Cruise Faulted")) ("") 0.2 Priority.LOWER 0)),
    (ET.NO_ENTRY, CatalogVal.fixed (NoEntryAlert (tr ("Cruise Faulted")) VisualAlert.none))]),
  (EventName.controlsMismatch, [
    (ET.IMMEDIATE_DISABLE, CatalogVal.fixed (ImmediateDisableAlert (tr ("Controls Mismatch"))))]),
  (EventName.roadCameraError, [
    (ET.PERMANENT, CatalogVal.fixed (NormalPermanentAlert (tr ("Camera Error")) ("") 1 Priority.LOWER 30))]),
  (EventName.driverCameraError, [
    (ET.PERMANENT, CatalogVal.fixed (NormalPermanentAlert (tr ("Camera Error")) ("") 1 Priority.LOWER 30))]),
  (EventName.wideRoadCameraError, [
    (ET.PERMANENT, CatalogVal.fixed (NormalPermanentAlert (tr ("Camera Error")) ("") 1 Priority.LOWER 30))]),
  (EventName.usbError, [
    (ET.SOFT_DISABLE, CatalogVal.callback (totalCallback (soft_disable_alert (tr ("USB Error: Reboot Your Device"))))),
    (ET.PERMANENT, CatalogVal.fixed (NormalPermanentAlert (tr ("USB Error: Reboot Your Device")) ("") 0.2 Priority.LOWER 0)),
    (ET.NO_ENTRY, CatalogVal.fixed (NoEntryAlert (tr ("USB Error: Reboot Your Device")) VisualAlert.none))]),
  (EventName.canError, [
    (ET.IMMEDIATE_DISABLE, CatalogVal.fixed (ImmediateDisableAlert (tr ("CAN Error: Check Connections")))),
    (ET.PERMANENT, CatalogVal.fixed (Alert.make (tr ("CAN Error: Check Connections")) ("")
      AlertStatus.normal AlertSize.small Priority.LOW VisualAlert.none AudibleAlert.none 1 0 1)),
    (ET.NO_ENTRY, CatalogVal.fixed (NoEntryAlert (tr ("CAN Error: Check Connections")) VisualAlert.none))]),
  (EventName.steerUnavailable, [
    (ET.IMMEDIATE_DISABLE, CatalogVal.fixed (ImmediateDisableAlert (tr ("LKAS Fault: Restart the Car")))),
    (ET.PERMANENT, CatalogVal.fixed (NormalPermanentAlert (tr ("LKAS Fault: Restart the car to engage")) ("") 0.2 Priority.LOWER 0)),
    (ET.NO_ENTRY, CatalogVal.fixed (NoEntryAlert (tr ("LKAS Fault: Restart the Car")) VisualAlert.none))]),
  (EventName.brakeUnavailable, [
    (ET.IMMEDIATE_DISABLE, CatalogVal.fixed (ImmediateDisableAlert (tr ("Cruise Fault: Restart the Car")))),
    (ET.PERMANENT, CatalogVal.fixed (NormalPermanentAlert (tr ("Cruise Fault: Restart the car to engage")) ("") 0.2 Priority.LOWER 0)),
    (ET.NO_ENTRY, CatalogVal.fixed (NoEntryAlert (tr ("Cruise Fault: Restart the Car")) VisualAlert.none))]),
  (EventName.reverseGear, [
    (ET.PERMANENT, CatalogVal.fixed (Alert.make (tr ("Reverse\nGear")) ("")
      AlertStatus.normal AlertSize.full Priority.LOWEST VisualAlert.none AudibleAlert.none 0.2 0 0.5)),
    (ET.NO_ENTRY, CatalogVal.fixed (NoEntryAlert (tr ("Reverse Gear")) VisualAlert.none))]),
  (EventName.cruiseDisabled, [
    (ET.IMMEDIATE_DISABLE, CatalogVal.fixed (ImmediateDisableAlert (tr ("Cruise Is Off"))))]),
  (EventName.plannerError, [
    (ET.IMMEDIATE_DISABLE, CatalogVal.fixed (ImmediateDisableAlert (tr ("Planner Solution Error")))),
    (ET.NO_ENTRY, CatalogVal.fixed (NoEntryAlert (tr ("Planner Solution Error")) VisualAlert.none))]),
  (EventName.relayMalfunction, [
    (ET.IMMEDIATE_DISABLE, CatalogVal.fixed (ImmediateDisableAlert (tr ("Harness Malfunction")))),
    (ET.PERMANENT, CatalogVal.fixed (NormalPermanentAlert (tr ("Harness Malfunction")) (tr ("Check Hardware")) 0.2 Priority.LOWER 0)),
    (ET.NO_ENTRY, CatalogVal.fixed (NoEntryAlert (tr ("Harness Malfunction")) VisualAlert.none))]),
  (EventName.noTarget, [
    (ET.IMMEDIATE_DISABLE, CatalogVal.fixed (Alert.make (tr ("SDPilot Canceled")) (tr ("No close lead car"))
      AlertStatus.normal AlertSize.mid Priority.HIGH VisualAlert.none AudibleAlert.disengage 3 0 0)),
    (ET.NO_ENTRY, CatalogVal.fixed (NoEntryAlert (tr ("No Close Lead Car")) VisualAlert.none))]),
  (EventName.speedTooLow, [
    (ET.IMMEDIATE_DISABLE, CatalogVal.fixed (Alert.make (tr ("SDPilot Canceled")) (tr ("Speed too low"))
      AlertStatus.normal AlertSize.mid Priority.HIGH VisualAlert.none AudibleAlert.disengage 3 0 0))]),
  (EventName.speedTooHigh, [
    (ET.WARNING, CatalogVal.fixed (Alert.make (tr ("Speed Too High")) (tr ("Model uncertain at this speed"))
      AlertStatus.userPrompt AlertSize.mid Priority.HIGH VisualAlert.steerRequired AudibleAlert.promptRepeat 4 0 0)),
    (ET.NO_ENTRY, CatalogVal.fixed (NoEntryAlert (tr ("Slow down to engage")) VisualAlert.none))]),
  (EventName.lowSpeedLockout, [
    (ET.PERMANENT, CatalogVal.fixed (NormalPermanentAlert (tr ("Cruise Fault: Restart the car to engage")) ("") 0.2 Priority.LOWER 0)),
    (ET.NO_ENTRY, CatalogVal.fixed (NoEntryAlert (tr ("Cruise Fault: Restart the Car")) VisualAlert.none))])
]

/-- Dict lookup on the catalog (EVENTS.get / EVENTS[...]). -/
def catFind (cat : Catalog) (e : EventName) : Option CatalogEntry :=
  match cat with
  | [] => none
  | p :: rest => if p.1 = e then some p.2 else catFind rest e

/-- Dict lookup inside one catalog entry. -/
def etFind (entry : CatalogEntry) (et : ET) : Option CatalogVal :=
  match entry with
  | [] => none
  | p :: rest => if p.1 = et then some p.2 else etFind rest et

/-- In-place mutation of the Alert object a catalog entry stores under a
type tag: replace the slot with a fixed alert carrying the new field
values (the slot is unique, as dict keys are). -/
def setFixed (entry : CatalogEntry) (et : ET) (a : Alert) : CatalogEntry :=
  match entry with
  | [] => []
  | p :: rest => if p.1 = et then (p.1, CatalogVal.fixed a) :: rest else p :: setFixed rest et a

/-- In-place mutation of a fixed Alert stored in the catalog under an
event identifier and type tag. -/
def catSetFixed (cat : Catalog) (e : EventName) (et : ET) (a : Alert) : Catalog :=
  match cat with
  | [] => []
  | p :: rest => if p.1 = e then (p.1, setFixed p.2 et a) :: rest else p :: catSetFixed rest e et a

/-- Whether the type tag et is among EVENTS.get(e, {}).keys(). -/
def eventHasType (cat : Catalog) (e : EventName) (et : ET) : Bool :=
  ((catFind cat e).getD []).any (fun p => decide (p.1 = et))

/-- Arbitration engine state (class Events).  events_prev is modelled as a
total function; the source keeps it keyed by exactly the catalog keys and
only ever reads it at catalog keys.  The module-level catalog is part of
the state because evaluating a fixed catalog alert mutates the stored
object in place (the alert_type / event_type stamping below). -/
structure Events where
  events : List EventName
  static_events : List EventName
  events_prev : EventName → Nat
  catalog : Catalog

/-- An engine state as built by Events.__init__ (empty lists, all ages
zero), parametric in the catalog table the engine reads. -/
def Events.initWith (cat : Catalog) : Events :=
  { events := [], static_events := [], events_prev := fun _ => 0, catalog := cat }

/-- Events.__init__ with the module catalog. -/
def Events.init : Events := Events.initWith EVENTS

/-- Events.add: append to events, and to static_events as well when the
static flag is set. -/
def Events.add (self : Events) (event_name : EventName) (static : Bool) : Events :=
  { self with
    static_events := if static then self.static_events ++ [event_name] else self.static_events
    events := self.events ++ [event_name] }

/-- Events.clear: advance every age counter (increment when the key is in
the current events list, reset to zero otherwise), then reset events to a
copy of the static list. -/
def Events.clear (self : Events) : Events :=
  { self with
    events_prev := fun k => if k ∈ self.events then self.events_prev k + 1 else 0
    events := self.static_events }

/-- Events.any: whether some identifier in the current events list has the
given type in the catalog (unknown identifiers contribute no types). -/
def Events.any (self : Events) (event_type : ET) : Bool :=
  self.events.any (fun e => eventHasType self.catalog e event_type)

/-- Stamping performed by create_alerts on an alert it is about to emit:
alert_type becomes "<event-name>/<event-type>" and event_type is set. -/
def stampAlert (e : EventName) (et : ET) (a : Alert) : Alert :=
  { a with alert_type := EVENT_NAME e ++ "/" ++ ET.str et, event_type := some et }

/-- One inner-loop step of create_alerts for the identifier e and one
requested type et: resolve the slot from the current (possibly already
stamped) catalog, invoke the callback when the slot holds one (which may
raise, aborting the call), apply the debounce gate
DT_CTRL * (events_prev[e] + 1) >= creation_delay, stamp and collect the
alert, and write the stamped alert back when the slot holds a fixed Alert
(the source mutates the stored object in place); an exception already
raised aborts the remaining work. -/
def createAlertsInner (CP : CarParams) (sm : SubMaster) (metric : Bool)
    (soft_disable_time : Int) (prev : Nat) (e : EventName)
    (st : Except PyErr (Catalog × List Alert)) (et : ET) :
    Except PyErr (Catalog × List Alert) :=
  match st with
  | Except.error err => Except.error err
  | Except.ok s =>
    match etFind ((catFind s.1 e).getD []) et with
    | none => Except.ok s
    | some v =>
      match (match v with
        | CatalogVal.fixed a => Except.ok a
        | CatalogVal.callback f => f CP sm metric soft_disable_time) with
      | Except.error err => Except.error err
      | Except.ok alert =>
        if alert.creation_delay ≤ DT_CTRL * ((prev : ℚ) + 1) then
          let stamped := stampAlert e et alert
          let cat2 := match v with
            | CatalogVal.fixed _ => catSetFixed s.1 e et stamped
            | CatalogVal.callback _ => s.1
          Except.ok (cat2, s.2 ++ [stamped])
        else Except.ok s

/-- One outer-loop step of create_alerts for one occurrence of an
identifier in the events list: the direct catalog index EVENTS[e] raises
KeyError for an identifier with no entry; otherwise the requested types
are scanned in order; an exception already raised aborts the remaining
work. -/
def createAlertsEvent (CP : CarParams) (sm : SubMaster) (metric : Bool)
    (soft_disable_time : Int) (event_types : List ET) (prev : EventName → Nat)
    (st : Except PyErr (Catalog × List Alert)) (e : EventName) :
    Except PyErr (Catalog × List Alert) :=
  match st with
  | Except.error err => Except.error err
  | Except.ok s =>
    match catFind s.1 e with
    | none => Except.error PyErr.keyError
    | some _ =>
      event_types.foldl (createAlertsInner CP sm metric soft_disable_time (prev e) e) (Except.ok s)

/-- Events.create_alerts: scan the events list in order, resolve catalog
slots against the requested types, apply the debounce gate, and return
the stamped candidates together with the engine state (whose catalog
carries the in-place stamping of fixed alerts). -/
def Events.create_alerts (self : Events) (event_types : List ET) (CP : CarParams)
    (sm : SubMaster) (metric : Bool) (soft_disable_time : Int) :
    Except PyErr (List Alert × Events) :=
  match self.events.foldl (createAlertsEvent CP sm metric soft_disable_time event_types self.events_prev)
      (Except.ok (self.catalog, [])) with
  | Except.error err => Except.error err
  | Except.ok s => Except.ok (s.2, { self with catalog := s.1 })

/-- The candidate list returned by create_alerts, discarding the updated
engine state (for statements about the returned value). -/
def Events.create_alerts_list (self : Events) (event_types : List ET) (CP : CarParams)
    (sm : SubMaster) (metric : Bool) (soft_disable_time : Int) : Except PyErr (List Alert) :=
  (self.create_alerts event_types CP sm metric soft_disable_time).map Prod.fst

/-- The catalog after a create_alerts call (unchanged when the call
raises), for statements about catalog mutation. -/
def Events.catalogAfter (self : Events) (event_types : List ET) (CP : CarParams)
    (sm : SubMaster) (metric : Bool) (soft_disable_time : Int) : Catalog :=
  match self.create_alerts event_types CP sm metric soft_disable_time with
  | Except.ok s => s.2.catalog
  | Except.error _ => self.catalog

/-- One record of Events.to_msg (car.CarEvent): the identifier and one
boolean per event-type tag, each set iff the tag is among
EVENTS.get(event_name, {}).keys() (new_message starts all flags false). -/
structure CarEvent where
  name : EventName
  enable : Bool
  preEnable : Bool
  noEntry : Bool
  warning : Bool
  userDisable : Bool
  softDisable : Bool
  immediateDisable : Bool
  permanent : Bool
deriving DecidableEq

/-- The wire record as car.CarEvent.new_message initializes it: the
identifier with every event-type flag false. -/
def blankCarEvent (event_name : EventName) : CarEvent :=
  { name := event_name, enable := false, preEnable := false, noEntry := false,
    warning := false, userDisable := false, softDisable := false, immediateDisable := false,
    permanent := false }

/-- The wire record built for one identifier occurrence. -/
def wireEvent (cat : Catalog) (event_name : EventName) : CarEvent :=
  { name := event_name
    enable := eventHasType cat event_name ET.ENABLE
    preEnable := eventHasType cat event_name ET.PRE_ENABLE
    noEntry := eventHasType cat event_name ET.NO_ENTRY
    warning := eventHasType cat event_name ET.WARNING
    userDisable := eventHasType cat event_name ET.USER_DISABLE
    softDisable := eventHasType cat event_name ET.SOFT_DISABLE
    immediateDisable := eventHasType cat event_name ET.IMMEDIATE_DISABLE
    permanent := eventHasType cat event_name ET.PERMANENT }

/-- Events.to_msg: one wire record appended per occurrence in the events
list, in order. -/
def Events.to_msg (self : Events) : List CarEvent :=
  self.events.foldl (fun ret e => ret ++ [wireEvent self.catalog e]) []

/-- Report a sequence of active identifiers for the tick (repeated
Events.add with static false, in order). -/
def Events.addAll (self : Events) (active : List EventName) : Events :=
  active.foldl (fun s e => s.add e false) self

/-- Modelled from the spec: one control cycle of the per-tick protocol —
advance the debounce counters and reset the events list (clear), then
report the identifiers active this tick; queries run afterwards, so they
see the sticky identifiers followed by this tick's report. -/
def Events.tick (self : Events) (active : List EventName) : Events :=
  (self.clear).addAll active

/-- n control cycles, each reporting the same active identifiers. -/
def Events.runTicks (self : Events) (active : List EventName) : Nat → Events
  | 0 => self
  | n + 1 => (self.runTicks active n).tick active

/-- An alert with the evaluation-time stamping removed (alert_type and
event_type back to their constructed values). -/
def Alert.eraseMeta (a : Alert) : Alert := { a with alert_type := "", event_type := none }

/-- A catalog slot with the evaluation-time stamping removed. -/
def CatalogVal.eraseMeta : CatalogVal → CatalogVal
  | CatalogVal.fixed a => CatalogVal.fixed a.eraseMeta
  | CatalogVal.callback f => CatalogVal.callback f

/-- A catalog entry with the evaluation-time stamping of its fixed alerts
removed. -/
def eraseEntryMeta (entry : CatalogEntry) : CatalogEntry :=
  entry.map (fun q => (q.1, q.2.eraseMeta))

/-- A catalog with the evaluation-time stamping of every fixed alert
removed; two catalogs equal under this map differ at most in the
alert_type / event_type fields of their stored fixed alerts. -/
def eraseCatalogMeta (cat : Catalog) : Catalog :=
  cat.map (fun p => (p.1, eraseEntryMeta p.2))

/-- The alert_type field stored in the catalog under an identifier and
type tag, when that slot holds a fixed alert. -/
def alertTypeAt (cat : Catalog) (e : EventName) (et : ET) : Option String :=
  match etFind ((catFind cat e).getD []) et with
  | some (CatalogVal.fixed a) => some a.alert_type
  | _ => none

/-- A fixed context snapshot for concrete evaluations. -/
def CP0 : CarParams := { minEnableSpeed := 0, minSteerSpeed := 0, carName := "" }

/-- A fixed live-signal snapshot for concrete evaluations. -/
def sm0 : SubMaster := { calPerc := 0, pandaType := PandaType.other, axes := [] }

/- Helper lemmas about the engine operations. -/

theorem foldl_append_map {α β : Type} (f : α → β) :
    ∀ (l : List α) (acc : List β), l.foldl (fun r e => r ++ [f e]) acc = acc ++ l.map f
  | [], acc => by simp
  | e :: rest, acc => by
    rw [List.foldl_cons, foldl_append_map f rest]
    simp

theorem Events.to_msg_eq_map (s : Events) : s.to_msg = s.events.map (wireEvent s.catalog) := by
  simpa [Events.to_msg] using foldl_append_map (wireEvent s.catalog) s.events []

theorem wireEvent_name (cat : Catalog) (e : EventName) : (wireEvent cat e).name = e := rfl

theorem addAll_cons (s : Events) (e : EventName) (rest : List EventName) :
    s.addAll (e :: rest) = (s.add e false).addAll rest := rfl

theorem addAll_events (A : List EventName) : ∀ s : Events, (s.addAll A).events = s.events ++ A := by
  induction A with
  | nil => intro s; simp [Events.addAll]
  | cons e rest ih =>
    intro s
    rw [addAll_cons, ih]
    simp [Events.add]

theorem addAll_static (A : List EventName) :
    ∀ s : Events, (s.addAll A).static_events = s.static_events := by
  induction A with
  | nil => intro s; rfl
  | cons e rest ih =>
    intro s
    rw [addAll_cons, ih]
    rfl

theorem addAll_prev (A : List EventName) :
    ∀ s : Events, (s.addAll A).events_prev = s.events_prev := by
  induction A with
  | nil => intro s; rfl
  | cons e rest ih =>
    intro s
    rw [addAll_cons, ih]
    rfl

theorem addAll_catalog (A : List EventName) :
    ∀ s : Events, (s.addAll A).catalog = s.catalog := by
  induction A with
  | nil => intro s; rfl
  | cons e rest ih =>
    intro s
    rw [addAll_cons, ih]
    rfl

/- Arithmetic facts about the tick constant and the Python truncation. -/

theorem pyInt_natCast (n : Nat) : pyInt (n : ℚ) = n := by
  rw [pyInt, if_neg (not_lt.mpr (by positivity)), Rat.floor_def']
  simp

/-- The escalation threshold int(0.5 / DT_CTRL) evaluates to 50 ticks. -/
theorem soft_disable_threshold : pyInt (0.5 / DT_CTRL) = 50 := by
  have h : (0.5 : ℚ) / DT_CTRL = ((50 : Nat) : ℚ) := by norm_num [DT_CTRL]
  rw [h, pyInt_natCast]
  norm_num

theorem DT_CTRL_pos : (0 : ℚ) < DT_CTRL := by norm_num [DT_CTRL]

theorem gate_of_zero_delay (n : Nat) : (0 : ℚ) ≤ DT_CTRL * ((n : ℚ) + 1) := by
  rw [DT_CTRL]
  positivity

theorem gate_mul_iff (c : ℚ) (m : Nat) :
    (c * DT_CTRL ≤ DT_CTRL * ((m : ℚ) + 1)) ↔ c ≤ (m : ℚ) + 1 := by
  rw [mul_comm DT_CTRL ((m : ℚ) + 1), mul_le_mul_right DT_CTRL_pos]

/- Step lemmas for symbolic evaluation of create_alerts. -/

theorem createAlertsEvent_ok {CP : CarParams} {sm : SubMaster} {metric : Bool} {t : Int}
    {ets : List ET} {prevf : EventName → Nat} {cat : Catalog} {acc : List Alert}
    {e : EventName} {entry : CatalogEntry} (h : catFind cat e = some entry) :
    createAlertsEvent CP sm metric t ets prevf (Except.ok (cat, acc)) e =
      ets.foldl (createAlertsInner CP sm metric t (prevf e) e) (Except.ok (cat, acc)) := by
  simp [createAlertsEvent, h]

theorem createAlertsEvent_err {CP : CarParams} {sm : SubMaster} {metric : Bool} {t : Int}
    {ets : List ET} {prevf : EventName → Nat} {cat : Catalog} {acc : List Alert}
    {e : EventName} (h : catFind cat e = none) :
    createAlertsEvent CP sm metric t ets prevf (Except.ok (cat, acc)) e =
      Except.error PyErr.keyError := by
  simp [createAlertsEvent, h]

theorem createAlertsEvent_error_state (CP : CarParams) (sm : SubMaster) (metric : Bool) (t : Int)
    (ets : List ET) (prevf : EventName → Nat) (err : PyErr) (e : EventName) :
    createAlertsEvent CP sm metric t ets prevf (Except.error err) e = Except.error err := rfl

theorem createAlertsInner_error_state (CP : CarParams) (sm : SubMaster) (metric : Bool)
    (t : Int) (prev : Nat) (e : EventName) (err : PyErr) (et : ET) :
    createAlertsInner CP sm metric t prev e (Except.error err) et = Except.error err := rfl

theorem foldl_createAlertsInner_error (CP : CarParams) (sm : SubMaster) (metric : Bool)
    (t : Int) (prev : Nat) (e : EventName) (err : PyErr) :
    ∀ ets : List ET,
      ets.foldl (createAlertsInner CP sm metric t prev e) (Except.error err) =
        Except.error err := by
  intro ets
  induction ets with
  | nil => rfl
  | cons et rest ih =>
    rw [List.foldl_cons]
    exact ih

theorem createAlertsInner_fixed {CP : CarParams} {sm : SubMaster} {metric : Bool} {t : Int}
    {prev : Nat} {e : EventName} {cat : Catalog} {acc : List Alert} {et : ET} {a : Alert}
    (h : etFind ((catFind cat e).getD []) et = some (CatalogVal.fixed a))
    (hg : a.creation_delay ≤ DT_CTRL * ((prev : ℚ) + 1)) :
    createAlertsInner CP sm metric t prev e (Except.ok (cat, acc)) et =
      Except.ok (catSetFixed cat e et (stampAlert e et a), acc ++ [stampAlert e et a]) := by
  simp [createAlertsInner, h, hg]

theorem createAlertsInner_fixed_blocked {CP : CarParams} {sm : SubMaster} {metric : Bool} {t : Int}
    {prev : Nat} {e : EventName} {cat : Catalog} {acc : List Alert} {et : ET} {a : Alert}
    (h : etFind ((catFind cat e).getD []) et = some (CatalogVal.fixed a))
    (hg : ¬ (a.creation_delay ≤ DT_CTRL * ((prev : ℚ) + 1))) :
    createAlertsInner CP sm metric t prev e (Except.ok (cat, acc)) et =
      Except.ok (cat, acc) := by
  simp [createAlertsInner, h, hg]

/-- The result of create_alerts on a one-element events list whose
identifier carries a fixed alert under the requested type, when the
debounce gate passes. -/
theorem create_alerts_single (CP : CarParams) (sm : SubMaster) (metric : Bool) (t : Int) (et : ET)
    {s : Events} {e1 : EventName} {entry : CatalogEntry} {a1 : Alert}
    (hev : s.events = [e1])
    (hc : catFind s.catalog e1 = some entry)
    (h1 : etFind entry et = some (CatalogVal.fixed a1))
    (hg : a1.creation_delay ≤ DT_CTRL * ((s.events_prev e1 : ℚ) + 1)) :
    s.create_alerts [et] CP sm metric t =
      Except.ok ([stampAlert e1 et a1],
        { s with catalog := catSetFixed s.catalog e1 et (stampAlert e1 et a1) }) := by
  have h1' : etFind ((catFind s.catalog e1).getD []) et = some (CatalogVal.fixed a1) := by
    rw [hc]
    exact h1
  simp only [Events.create_alerts, hev, List.foldl_cons, List.foldl_nil]
  rw [createAlertsEvent_ok hc]
  simp only [List.foldl_cons, List.foldl_nil]
  rw [createAlertsInner_fixed h1' hg]
  simp

/-- The result of create_alerts on a one-element events list when the
debounce gate blocks the fixed alert: no candidate, no mutation. -/
theorem create_alerts_single_blocked (CP : CarParams) (sm : SubMaster) (metric : Bool) (t : Int) (et : ET)
    {s : Events} {e1 : EventName} {entry : CatalogEntry} {a1 : Alert}
    (hev : s.events = [e1])
    (hc : catFind s.catalog e1 = some entry)
    (h1 : etFind entry et = some (CatalogVal.fixed a1))
    (hg : ¬ (a1.creation_delay ≤ DT_CTRL * ((s.events_prev e1 : ℚ) + 1))) :
    s.create_alerts [et] CP sm metric t = Except.ok ([], s) := by
  have h1' : etFind ((catFind s.catalog e1).getD []) et = some (CatalogVal.fixed a1) := by
    rw [hc]
    exact h1
  simp only [Events.create_alerts, hev, List.foldl_cons, List.foldl_nil]
  rw [createAlertsEvent_ok hc]
  simp only [List.foldl_cons, List.foldl_nil]
  rw [createAlertsInner_fixed_blocked h1' hg, ← hev]

/-- The result of create_alerts on a two-element events list, both
occurrences carrying a fixed alert under the requested type (the second
looked up in the catalog as already stamped by the first), both gates
passing. -/
theorem create_alerts_pair (CP : CarParams) (sm : SubMaster) (metric : Bool) (t : Int) (et : ET)
    {s : Events} {e1 e2 : EventName} {entry1 entry2 : CatalogEntry} {a1 a2 : Alert}
    (hev : s.events = [e1, e2])
    (hc1 : catFind s.catalog e1 = some entry1)
    (h1 : etFind entry1 et = some (CatalogVal.fixed a1))
    (hg1 : a1.creation_delay ≤ DT_CTRL * ((s.events_prev e1 : ℚ) + 1))
    (hc2 : catFind (catSetFixed s.catalog e1 et (stampAlert e1 et a1)) e2 = some entry2)
    (h2 : etFind entry2 et = some (CatalogVal.fixed a2))
    (hg2 : a2.creation_delay ≤ DT_CTRL * ((s.events_prev e2 : ℚ) + 1)) :
    s.create_alerts_list [et] CP sm metric t =
      Except.ok [stampAlert e1 et a1, stampAlert e2 et a2] := by
  have h1' : etFind ((catFind s.catalog e1).getD []) et = some (CatalogVal.fixed a1) := by
    rw [hc1]
    exact h1
  have h2' : etFind ((catFind (catSetFixed s.catalog e1 et (stampAlert e1 et a1)) e2).getD []) et
      = some (CatalogVal.fixed a2) := by
    rw [hc2]
    exact h2
  simp only [Events.create_alerts_list, Events.create_alerts, hev, List.foldl_cons, List.foldl_nil]
  rw [createAlertsEvent_ok hc1]
  simp only [List.foldl_cons, List.foldl_nil]
  rw [createAlertsInner_fixed h1' hg1, createAlertsEvent_ok hc2]
  simp only [List.foldl_cons, List.foldl_nil]
  rw [createAlertsInner_fixed h2' hg2]
  rfl

theorem clear_prev_of_mem (s : Events) (id : EventName) (h : id ∈ s.events) :
    (s.clear).events_prev id = s.events_prev id + 1 := by
  simp [Events.clear, h]

theorem clear_prev_of_not_mem (s : Events) (id : EventName) (h : id ∉ s.events) :
    (s.clear).events_prev id = 0 := by
  simp [Events.clear, h]

/-- C7: debounce reset — on a clear where the identifier is absent from
the current active+sticky events list, its age counter becomes zero
(whatever it was); reporting it active again on the next tick restarts
the clock, the following clear counting it as one tick active. -/
theorem c7_debounce_reset (s : Events) (id : EventName) (h : id ∉ s.events) :
    (s.clear).events_prev id = 0 ∧
    (((s.clear).addAll [id]).clear).events_prev id = 1 := by
  have h0 : (s.clear).events_prev id = 0 := clear_prev_of_not_mem s id h
  refine ⟨h0, ?_⟩
  have hmem : id ∈ ((s.clear).addAll [id]).events := by
    rw [addAll_events]
    exact List.mem_append_right _ (List.mem_singleton.mpr rfl)
  rw [clear_prev_of_mem _ _ hmem, addAll_prev, h0]

/-- C7 witness at a concrete state and identifier. -/
theorem c7_debounce_reset_witness :
    (EventName.startup ∉ (Events.init).events) ∧
    ((Events.init.clear).events_prev EventName.startup = 0 ∧
     (((Events.init.clear).addAll [EventName.startup]).clear).events_prev EventName.startup = 1) :=
  ⟨by simp [Events.init, Events.initWith],
   c7_debounce_reset Events.init EventName.startup (by simp [Events.init, Events.initWith])⟩

/-- C3: soft-disable escalation — for every alert text and context, the
callback built by soft_disable_alert yields the ImmediateDisableAlert
(Highest priority, critical status) when the remaining soft-disable time
is strictly below int(0.5 / DT_CTRL) ticks, and the SoftDisableAlert (Mid
priority, userPrompt status) at or above that threshold. -/
theorem c3_soft_disable_escalation (alert_text_2 : String) (CP : CarParams) (sm : SubMaster)
    (metric : Bool) (soft_disable_time : Int) :
    (soft_disable_time < pyInt (0.5 / DT_CTRL) →
      (soft_disable_alert alert_text_2 CP sm metric soft_disable_time).priority = Priority.HIGHEST ∧
      (soft_disable_alert alert_text_2 CP sm metric soft_disable_time).alert_status = AlertStatus.critical) ∧
    (pyInt (0.5 / DT_CTRL) ≤ soft_disable_time →
      (soft_disable_alert alert_text_2 CP sm metric soft_disable_time).priority = Priority.MID ∧
      (soft_disable_alert alert_text_2 CP sm metric soft_disable_time).alert_status = AlertStatus.userPrompt) := by
  constructor
  · intro h
    simp [soft_disable_alert, if_pos h, ImmediateDisableAlert, Alert.make]
  · intro h
    simp [soft_disable_alert, if_neg (not_lt.mpr h), SoftDisableAlert, Alert.make]

/-- C3 witness at soft_disable_time 0 (below threshold) and 50 (at
threshold). -/
theorem c3_soft_disable_escalation_witness :
    ((soft_disable_alert ("x") CP0 sm0 false 0).priority = Priority.HIGHEST ∧
     (soft_disable_alert ("x") CP0 sm0 false 0).alert_status = AlertStatus.critical) ∧
    ((soft_disable_alert ("x") CP0 sm0 false 50).priority = Priority.MID ∧
     (soft_disable_alert ("x") CP0 sm0 false 50).alert_status = AlertStatus.userPrompt) :=
  ⟨(c3_soft_disable_escalation ("x") CP0 sm0 false 0).1 (by rw [soft_disable_threshold]; norm_num),
   (c3_soft_disable_escalation ("x") CP0 sm0 false 50).2 (by rw [soft_disable_threshold])⟩

/-- C9: wire-event round trip — for events [speedTooHigh, startup], whose
catalog entries carry exactly the type sets {WARNING, NO_ENTRY} and
{PERMANENT}, to_msg yields exactly two records: one naming speedTooHigh
with exactly the warning and noEntry flags set, one naming startup with
exactly the permanent flag set, all other flags false. -/
theorem c9_wire_round_trip :
    ((Events.init.add EventName.speedTooHigh false).add EventName.startup false).to_msg =
      [{ name := EventName.speedTooHigh, enable := false, preEnable := false, noEntry := true,
         warning := true, userDisable := false, softDisable := false, immediateDisable := false,
         permanent := false },
       { name := EventName.startup, enable := false, preEnable := false, noEntry := false,
         warning := false, userDisable := false, softDisable := false, immediateDisable := false,
         permanent := true }] := by
  rfl

/-- C5 counterexample: with the sticky identifier startup registered and
fcw actively reported this tick, create_alerts emits the sticky
identifier's candidate first, not the actively-reported one's first as
the claim states. -/
theorem c5_counterexample :
    (((Events.init.add EventName.startup true).tick [EventName.fcw]).create_alerts_list
        [ET.PERMANENT] CP0 sm0 false 0 =
      Except.ok [stampAlert EventName.startup ET.PERMANENT
          (StartupAlert (tr ("Be ready to take over at any time")) startupDefaultText2 AlertStatus.normal),
        stampAlert EventName.fcw ET.PERMANENT
          (Alert.make (tr ("BRAKE!")) (tr ("Risk of Collision"))
            AlertStatus.critical AlertSize.full Priority.HIGHEST VisualAlert.fcw AudibleAlert.warningSoft 2 0 0)]) ∧
    (((Events.init.add EventName.startup true).tick [EventName.fcw]).create_alerts_list
        [ET.PERMANENT] CP0 sm0 false 0 ≠
      Except.ok [stampAlert EventName.fcw ET.PERMANENT
          (Alert.make (tr ("BRAKE!")) (tr ("Risk of Collision"))
            AlertStatus.critical AlertSize.full Priority.HIGHEST VisualAlert.fcw AudibleAlert.warningSoft 2 0 0),
        stampAlert EventName.startup ET.PERMANENT
          (StartupAlert (tr ("Be ready to take over at any time")) startupDefaultText2 AlertStatus.normal)]) := by
  have hp1 : ((Events.init.add EventName.startup true).tick [EventName.fcw]).events_prev
      EventName.startup = 1 := rfl
  have hp2 : ((Events.init.add EventName.startup true).tick [EventName.fcw]).events_prev
      EventName.fcw = 0 := rfl
  have hmain : ((Events.init.add EventName.startup true).tick [EventName.fcw]).create_alerts_list
      [ET.PERMANENT] CP0 sm0 false 0 =
      Except.ok [stampAlert EventName.startup ET.PERMANENT
          (StartupAlert (tr ("Be ready to take over at any time")) startupDefaultText2 AlertStatus.normal),
        stampAlert EventName.fcw ET.PERMANENT
          (Alert.make (tr ("BRAKE!")) (tr ("Risk of Collision"))
            AlertStatus.critical AlertSize.full Priority.HIGHEST VisualAlert.fcw AudibleAlert.warningSoft 2 0 0)] :=
    create_alerts_pair CP0 sm0 false 0 ET.PERMANENT rfl rfl rfl
      (by rw [hp1]; norm_num [StartupAlert, Alert.make, DT_CTRL]) rfl rfl
      (by rw [hp2]; norm_num [Alert.make, DT_CTRL])
  refine ⟨hmain, ?_⟩
  rw [hmain]
  intro hcontra
  have h2 := congrArg (fun r => match r with
    | Except.ok (a :: _) => Alert.alert_type a
    | _ => "") hcontra
  exact absurd h2 (by decide)

/-- C5 amended: the identifier evaluation order of a tick is the sticky
identifiers (registration order) followed by the actively-reported
identifiers (report order) — after a clear and the tick's reports, the
events list create_alerts and to_msg iterate over equals
static_events ++ A; the sticky registration list itself is unchanged. -/
theorem c5_order_amended (s : Events) (A : List EventName) :
    ((s.clear).addAll A).events = s.static_events ++ A ∧
    ((s.clear).addAll A).static_events = s.static_events := by
  constructor
  · rw [addAll_events]
    rfl
  · rw [addAll_static]
    rfl

/-- C10: to_msg emits exactly one wire record per occurrence in the
events list (positionally, so duplicate occurrences yield duplicate
records), and an identifier with no catalog entry yields a record
carrying the identifier with every event-type flag false. -/
theorem c10_to_msg_per_occurrence (s : Events) (id : EventName)
    (h : catFind s.catalog id = none) :
    s.to_msg = s.events.map (wireEvent s.catalog) ∧
    (s.to_msg).length = s.events.length ∧
    wireEvent s.catalog id = blankCarEvent id := by
  refine ⟨Events.to_msg_eq_map s, ?_, ?_⟩
  · rw [Events.to_msg_eq_map]
    simp
  · simp [wireEvent, blankCarEvent, eventHasType, h]

/-- C10 witness: a duplicated uncatalogued identifier yields one record
per occurrence. -/
theorem c10_to_msg_witness :
    (catFind ((Events.init.add (EventName.externalOnly 0) false).add (EventName.externalOnly 0) false).catalog
        (EventName.externalOnly 0) = none) ∧
    ((((Events.init.add (EventName.externalOnly 0) false).add (EventName.externalOnly 0) false).to_msg).length =
      (((Events.init.add (EventName.externalOnly 0) false).add (EventName.externalOnly 0) false).events).length) :=
  ⟨by rfl,
   (c10_to_msg_per_occurrence ((Events.init.add (EventName.externalOnly 0) false).add (EventName.externalOnly 0) false)
      (EventName.externalOnly 0) (by rfl)).2.1⟩

theorem clear_events (s : Events) : (s.clear).events = s.static_events := rfl

theorem clear_static (s : Events) : (s.clear).static_events = s.static_events := rfl

theorem clear_catalog_eq (s : Events) : (s.clear).catalog = s.catalog := rfl

/-- State of the engine after n+1 ticks each reporting exactly [e],
starting from the initial state: the events list is [e], nothing is
sticky, the catalog is untouched, and the age counter of e is n. -/
theorem runTicks_spec (cat : Catalog) (e : EventName) :
    ∀ n : Nat,
      ((Events.initWith cat).runTicks [e] (n + 1)).events = [e] ∧
      ((Events.initWith cat).runTicks [e] (n + 1)).static_events = [] ∧
      ((Events.initWith cat).runTicks [e] (n + 1)).catalog = cat ∧
      ((Events.initWith cat).runTicks [e] (n + 1)).events_prev e = n := by
  intro n
  induction n with
  | zero => exact ⟨rfl, rfl, rfl, rfl⟩
  | succ m ih =>
    obtain ⟨h1, h2, h3, h4⟩ := ih
    have hstep : (Events.initWith cat).runTicks [e] (m + 2) =
        ((Events.initWith cat).runTicks [e] (m + 1)).tick [e] := rfl
    refine ⟨?_, ?_, ?_, ?_⟩
    · rw [hstep, Events.tick, addAll_events, clear_events, h2]
      rfl
    · rw [hstep, Events.tick, addAll_static, clear_static, h2]
    · rw [hstep, Events.tick, addAll_catalog, clear_catalog_eq, h3]
    · rw [hstep, Events.tick, addAll_prev,
        clear_prev_of_mem _ _ (by rw [h1]; exact List.mem_singleton.mpr rfl), h4]

/-- C2: debounce gate — in a fresh engine over a catalog whose entry for
e carries a fixed alert of creation delay 5 * DT_CTRL under the type et,
reporting e active every tick (tick advance once per tick) makes
create_alerts yield no candidate on ticks 1 through 4 and exactly one
stamped candidate from tick 5 onward; the gate compares
DT_CTRL * (age + 1) with the delay, using the previous tick's age plus
one. -/
theorem c2_debounce_gate (cat : Catalog) (e : EventName) (et : ET) (a : Alert)
    (CP : CarParams) (sm : SubMaster) (metric : Bool) (t : Int) (n : Nat)
    (hcat : catFind cat e = some [(et, CatalogVal.fixed a)])
    (hdelay : a.creation_delay = 5 * DT_CTRL)
    (hn : 1 ≤ n) :
    ((Events.initWith cat).runTicks [e] n).create_alerts_list [et] CP sm metric t =
      Except.ok (if 5 ≤ n then [stampAlert e et a] else []) := by
  obtain ⟨m, rfl⟩ : ∃ m, n = m + 1 := ⟨n - 1, (Nat.succ_pred_eq_of_pos hn).symm⟩
  obtain ⟨h1, _h2, h3, h4⟩ := runTicks_spec cat e m
  have hc : catFind ((Events.initWith cat).runTicks [e] (m + 1)).catalog e =
      some [(et, CatalogVal.fixed a)] := by
    rw [h3]
    exact hcat
  have hfind : etFind [(et, CatalogVal.fixed a)] et = some (CatalogVal.fixed a) := by
    simp [etFind]
  by_cases hge : 5 ≤ m + 1
  · have hg : a.creation_delay ≤
        DT_CTRL * ((((Events.initWith cat).runTicks [e] (m + 1)).events_prev e : ℚ) + 1) := by
      rw [h4, hdelay, gate_mul_iff]
      exact_mod_cast hge
    simp only [Events.create_alerts_list]
    rw [create_alerts_single CP sm metric t et h1 hc hfind hg, if_pos hge]
    rfl
  · have hg : ¬ (a.creation_delay ≤
        DT_CTRL * ((((Events.initWith cat).runTicks [e] (m + 1)).events_prev e : ℚ) + 1)) := by
      rw [h4, hdelay, gate_mul_iff]
      intro hcon
      exact hge (by exact_mod_cast hcon)
    simp only [Events.create_alerts_list]
    rw [create_alerts_single_blocked CP sm metric t et h1 hc hfind hg, if_neg hge]
    rfl

/-- A fixed alert with the claim's creation delay of 5 ticks (no entry of
the module catalog uses exactly that delay). -/
def testDelayAlert : Alert :=
  Alert.make ("t1") ("") AlertStatus.normal AlertSize.small Priority.LOW
    VisualAlert.none AudibleAlert.none 1 0 (5 * DT_CTRL)

/-- A one-entry catalog carrying the 5-tick-delay alert. -/
def testDelayCatalog : Catalog :=
  [(EventName.gasPressed, [(ET.PERMANENT, CatalogVal.fixed testDelayAlert)])]

/-- C2 witness: under the 5-tick-delay catalog, tick 4 yields no
candidate and tick 5 yields exactly one. -/
theorem c2_debounce_gate_witness :
    (catFind testDelayCatalog EventName.gasPressed =
        some [(ET.PERMANENT, CatalogVal.fixed testDelayAlert)] ∧
      testDelayAlert.creation_delay = 5 * DT_CTRL) ∧
    ((Events.initWith testDelayCatalog).runTicks [EventName.gasPressed] 4).create_alerts_list
        [ET.PERMANENT] CP0 sm0 false 0 = Except.ok [] ∧
    ((Events.initWith testDelayCatalog).runTicks [EventName.gasPressed] 5).create_alerts_list
        [ET.PERMANENT] CP0 sm0 false 0 =
      Except.ok [stampAlert EventName.gasPressed ET.PERMANENT testDelayAlert] :=
  ⟨⟨rfl, rfl⟩,
   by simpa using c2_debounce_gate testDelayCatalog EventName.gasPressed ET.PERMANENT
        testDelayAlert CP0 sm0 false 0 4 rfl rfl (by norm_num),
   by simpa using c2_debounce_gate testDelayCatalog EventName.gasPressed ET.PERMANENT
        testDelayAlert CP0 sm0 false 0 5 rfl rfl (by norm_num)⟩

/- Key-lookup lemmas for the mutated catalog. -/

theorem catFind_catSetFixed_none {cat : Catalog} {e2 : EventName} {et : ET} {a : Alert}
    {id : EventName} (h : catFind cat id = none) :
    catFind (catSetFixed cat e2 et a) id = none := by
  induction cat with
  | nil => rfl
  | cons p rest ih =>
    by_cases hpid : p.1 = id
    · simp [catFind, if_pos hpid] at h
    · simp only [catFind, if_neg hpid] at h
      by_cases hpe : p.1 = e2
      · simp only [catSetFixed, if_pos hpe, catFind, if_neg hpid]
        exact h
      · simp only [catSetFixed, if_neg hpe, catFind, if_neg hpid]
        exact ih h

theorem catFind_catSetFixed_self {cat : Catalog} {e : EventName} {et : ET} {a : Alert}
    {entry : CatalogEntry} (h : catFind cat e = some entry) :
    catFind (catSetFixed cat e et a) e = some (setFixed entry et a) := by
  induction cat with
  | nil => simp [catFind] at h
  | cons p rest ih =>
    by_cases hpe : p.1 = e
    · simp only [catFind, if_pos hpe] at h
      simp only [catSetFixed, if_pos hpe, catFind, if_pos hpe]
      injection h with h2
      rw [h2]
    · simp only [catFind, if_neg hpe] at h
      simp only [catSetFixed, if_neg hpe, catFind, if_neg hpe]
      exact ih h

/- Error propagation of create_alerts on uncatalogued identifiers. -/

theorem foldl_createAlertsEvent_error (CP : CarParams) (sm : SubMaster) (metric : Bool) (t : Int)
    (ets : List ET) (prevf : EventName → Nat) (err : PyErr) :
    ∀ l : List EventName,
      l.foldl (createAlertsEvent CP sm metric t ets prevf) (Except.error err) =
        Except.error err := by
  intro l
  induction l with
  | nil => rfl
  | cons e rest ih =>
    rw [List.foldl_cons]
    exact ih

theorem createAlertsInner_none_or_error (CP : CarParams) (sm : SubMaster) (metric : Bool)
    (t : Int) (prev : Nat) (e : EventName) {id : EventName}
    (s1 : Catalog × List Alert) (et : ET) (h : catFind s1.1 id = none) :
    (∃ err, createAlertsInner CP sm metric t prev e (Except.ok s1) et = Except.error err) ∨
    (∃ s2, createAlertsInner CP sm metric t prev e (Except.ok s1) et = Except.ok s2 ∧
      catFind s2.1 id = none) := by
  cases hf : etFind ((catFind s1.1 e).getD []) et with
  | none => exact Or.inr ⟨s1, by simp [createAlertsInner, hf], h⟩
  | some v =>
    cases v with
    | fixed a =>
      by_cases hg : a.creation_delay ≤ DT_CTRL * ((prev : ℚ) + 1)
      · exact Or.inr ⟨(catSetFixed s1.1 e et (stampAlert e et a), s1.2 ++ [stampAlert e et a]),
          by simp [createAlertsInner, hf, hg], catFind_catSetFixed_none h⟩
      · exact Or.inr ⟨s1, by simp [createAlertsInner, hf, hg], h⟩
    | callback f =>
      cases hres : f CP sm metric t with
      | error err => exact Or.inl ⟨err, by simp [createAlertsInner, hf, hres]⟩
      | ok alert =>
        by_cases hg : alert.creation_delay ≤ DT_CTRL * ((prev : ℚ) + 1)
        · exact Or.inr ⟨(s1.1, s1.2 ++ [stampAlert e et alert]),
            by simp [createAlertsInner, hf, hres, hg], h⟩
        · exact Or.inr ⟨s1, by simp [createAlertsInner, hf, hres, hg], h⟩

theorem foldl_inner_none_or_error (CP : CarParams) (sm : SubMaster) (metric : Bool)
    (t : Int) (prev : Nat) (e : EventName) {id : EventName} :
    ∀ (ets : List ET) (s1 : Catalog × List Alert), catFind s1.1 id = none →
      (∃ err, ets.foldl (createAlertsInner CP sm metric t prev e) (Except.ok s1) =
        Except.error err) ∨
      (∃ s2, ets.foldl (createAlertsInner CP sm metric t prev e) (Except.ok s1) =
        Except.ok s2 ∧ catFind s2.1 id = none) := by
  intro ets
  induction ets with
  | nil =>
    intro s1 h
    exact Or.inr ⟨s1, rfl, h⟩
  | cons et rest ih =>
    intro s1 h
    rw [List.foldl_cons]
    rcases createAlertsInner_none_or_error CP sm metric t prev e s1 et h with
      ⟨err, herr⟩ | ⟨s2, hok, hnone⟩
    · rw [herr, foldl_createAlertsInner_error]
      exact Or.inl ⟨err, rfl⟩
    · rw [hok]
      exact ih s2 hnone

theorem foldl_event_error_exists (CP : CarParams) (sm : SubMaster) (metric : Bool) (t : Int)
    (ets : List ET) (prevf : EventName → Nat) {id : EventName} :
    ∀ (l : List EventName) (cat : Catalog) (acc : List Alert),
      id ∈ l → catFind cat id = none →
      ∃ err, l.foldl (createAlertsEvent CP sm metric t ets prevf) (Except.ok (cat, acc)) =
        Except.error err := by
  intro l
  induction l with
  | nil =>
    intro cat acc hmem _h
    exact absurd hmem (List.not_mem_nil _)
  | cons e rest ih =>
    intro cat acc hmem h
    rw [List.foldl_cons]
    by_cases he : catFind cat e = none
    · rw [createAlertsEvent_err he]
      exact ⟨PyErr.keyError, foldl_createAlertsEvent_error CP sm metric t ets prevf PyErr.keyError rest⟩
    · obtain ⟨entry, hentry⟩ := Option.ne_none_iff_exists'.mp he
      rw [createAlertsEvent_ok hentry]
      have hne : id ≠ e := fun hcontra => he (hcontra ▸ h)
      have hmem2 : id ∈ rest := by
        rcases List.mem_cons.mp hmem with h1 | h1
        · exact absurd h1 hne
        · exact h1
      rcases foldl_inner_none_or_error CP sm metric t (prevf e) e ets (cat, acc) h with ⟨err, herr⟩ | ⟨s2, hok, hnone⟩
      · rw [herr, foldl_createAlertsEvent_error]
        exact ⟨err, rfl⟩
      · rw [hok]
        exact ih s2.1 s2.2 hmem2 hnone

theorem list_any_filter_of_false {α : Type} [DecidableEq α] (id : α) (f : α → Bool)
    (hf : f id = false) :
    ∀ l : List α, (l.filter (fun x => decide (x ≠ id))).any f = l.any f := by
  intro l
  induction l with
  | nil => rfl
  | cons x rest ih =>
    by_cases hx : x = id
    · subst hx
      rw [List.filter_cons, if_neg (by simp), ih, List.any_cons, hf, Bool.false_or]
    · rw [List.filter_cons, if_pos (by simp [hx]), List.any_cons, List.any_cons, ih]

/-- C1 counterexample: reporting an identifier with no catalog entry and
then calling create_alerts raises KeyError (the direct EVENTS[e] index),
so an unknown identifier is not inert for create_alerts and an exception
does escape the per-tick alert collection. -/
theorem c1_counterexample :
    (Events.init.add (EventName.externalOnly 0) false).create_alerts [ET.WARNING] CP0 sm0 false 0 =
      Except.error PyErr.keyError := by
  rfl

/-- With a one-element joystick axes list, resolving the joystickDebug
warning callback raises ValueError before any later identifier is
examined: an uncatalogued identifier listed after joystickDebug makes
create_alerts raise ValueError, not KeyError. -/
theorem create_alerts_joystick_valueError :
    ((Events.init.add EventName.joystickDebug false).add (EventName.externalOnly 0) false).create_alerts
      [ET.WARNING] CP0 { calPerc := 0, pandaType := PandaType.other, axes := [1] } false 0 =
      Except.error PyErr.valueError := by
  rfl

/-- C1 amended: an event identifier with no catalog entry is inert for
has_type — removing its occurrences from the events list never changes
any — but create_alerts with such an identifier among the events never
returns a candidate list: an exception propagates for every requested
event-type list and context (KeyError from the direct EVENTS[e] index
when the unknown identifier is reached — exactly KeyError whenever it is
listed first — though a callback of an earlier listed identifier may
raise before it, as joystick_alert does on a one-element axes list). -/
theorem c1_unknown_inert_amended (s : Events) (id : EventName)
    (hid : catFind s.catalog id = none) (hin : id ∈ s.events) :
    (∀ et, s.any et =
      ({ s with events := s.events.filter (fun x => decide (x ≠ id)) } : Events).any et) ∧
    (∀ (ets : List ET) (CP : CarParams) (sm : SubMaster) (metric : Bool) (t : Int),
      ∃ err, s.create_alerts ets CP sm metric t = Except.error err) ∧
    (∀ (rest : List EventName) (ets : List ET) (CP : CarParams) (sm : SubMaster)
      (metric : Bool) (t : Int),
      ({ s with events := id :: rest } : Events).create_alerts ets CP sm metric t =
        Except.error PyErr.keyError) := by
  refine ⟨?_, ?_, ?_⟩
  · intro et
    have hf : eventHasType s.catalog id et = false := by
      simp [eventHasType, hid]
    simp only [Events.any]
    exact (list_any_filter_of_false id _ hf s.events).symm
  · intro ets CP sm metric t
    obtain ⟨err, herr⟩ := foldl_event_error_exists CP sm metric t ets s.events_prev
      s.events s.catalog [] hin hid
    exact ⟨err, by simp only [Events.create_alerts, herr]⟩
  · intro rest ets CP sm metric t
    have hfold : (id :: rest).foldl
        (createAlertsEvent CP sm metric t ets s.events_prev) (Except.ok (s.catalog, [])) =
        Except.error PyErr.keyError := by
      rw [List.foldl_cons, createAlertsEvent_err hid]
      exact foldl_createAlertsEvent_error CP sm metric t ets s.events_prev PyErr.keyError rest
    simp only [Events.create_alerts, hfold]

/-- C1 witness at a concrete unknown identifier. -/
theorem c1_unknown_inert_witness :
    ((Events.init.add (EventName.externalOnly 1) false).any ET.WARNING =
      ({ Events.init.add (EventName.externalOnly 1) false with
          events := (Events.init.add (EventName.externalOnly 1) false).events.filter
            (fun x => decide (x ≠ EventName.externalOnly 1)) } : Events).any ET.WARNING) ∧
    (∃ err, (Events.init.add (EventName.externalOnly 1) false).create_alerts [] CP0 sm0 false 0 =
      Except.error err) ∧
    (({ Events.init.add (EventName.externalOnly 1) false with
        events := [EventName.externalOnly 1] } : Events).create_alerts
      [ET.WARNING] CP0 sm0 false 0 = Except.error PyErr.keyError) :=
  ⟨(c1_unknown_inert_amended (Events.init.add (EventName.externalOnly 1) false)
      (EventName.externalOnly 1) (by rfl)
      (by simp [Events.init, Events.initWith, Events.add])).1 ET.WARNING,
   (c1_unknown_inert_amended (Events.init.add (EventName.externalOnly 1) false)
      (EventName.externalOnly 1) (by rfl)
      (by simp [Events.init, Events.initWith, Events.add])).2.1 [] CP0 sm0 false 0,
   (c1_unknown_inert_amended (Events.init.add (EventName.externalOnly 1) false)
      (EventName.externalOnly 1) (by rfl)
      (by simp [Events.init, Events.initWith, Events.add])).2.2 [] [ET.WARNING] CP0 sm0 false 0⟩

/-- C8: sticky persistence — add with static true registers the
identifier in the sticky list, and a sticky identifier is in the events
list of every subsequent tick (whatever that tick actively reports, the
identifier itself not among the reports), remains registered, and so
participates in the per-tick queries, e.g. a to_msg record names it. -/
theorem c8_sticky_persistence (s : Events) (e : EventName) (A : List EventName)
    (h : e ∈ s.static_events) :
    e ∈ (s.add e true).static_events ∧
    e ∈ (s.tick A).events ∧
    e ∈ (s.tick A).static_events ∧
    e ∈ ((s.tick A).to_msg).map CarEvent.name := by
  refine ⟨?_, ?_, ?_, ?_⟩
  · simp [Events.add]
  · rw [Events.tick, addAll_events]
    exact List.mem_append_left _ h
  · rw [Events.tick, addAll_static]
    exact h
  · rw [Events.to_msg_eq_map, List.map_map]
    have : (CarEvent.name ∘ wireEvent (s.tick A).catalog) = id := by
      funext x
      rfl
    rw [this, List.map_id, Events.tick, addAll_events]
    exact List.mem_append_left _ h

/-- C8 witness: startup registered sticky, a later tick reporting fcw. -/
theorem c8_sticky_persistence_witness :
    (EventName.startup ∈ (Events.init.add EventName.startup true).static_events) ∧
    (EventName.startup ∈ ((Events.init.add EventName.startup true).tick [EventName.fcw]).events ∧
     EventName.startup ∈ ((Events.init.add EventName.startup true).tick [EventName.fcw]).static_events) :=
  ⟨by simp [Events.init, Events.initWith, Events.add],
   ⟨(c8_sticky_persistence (Events.init.add EventName.startup true) EventName.startup [EventName.fcw]
       (by simp [Events.init, Events.initWith, Events.add])).2.1,
    (c8_sticky_persistence (Events.init.add EventName.startup true) EventName.startup [EventName.fcw]
       (by simp [Events.init, Events.initWith, Events.add])).2.2.1⟩⟩

/-- C4 counterexample: the startup identifier reported twice in one tick
makes create_alerts yield its permanent candidate twice — not the same
result as a single occurrence. -/
theorem c4_counterexample :
    (((Events.init.add EventName.startup false).add EventName.startup false).create_alerts_list
        [ET.PERMANENT] CP0 sm0 false 0 =
      Except.ok [stampAlert EventName.startup ET.PERMANENT
          (StartupAlert (tr ("Be ready to take over at any time")) startupDefaultText2 AlertStatus.normal),
        stampAlert EventName.startup ET.PERMANENT
          (StartupAlert (tr ("Be ready to take over at any time")) startupDefaultText2 AlertStatus.normal)]) ∧
    ((Events.init.add EventName.startup false).create_alerts_list [ET.PERMANENT] CP0 sm0 false 0 =
      Except.ok [stampAlert EventName.startup ET.PERMANENT
          (StartupAlert (tr ("Be ready to take over at any time")) startupDefaultText2 AlertStatus.normal)]) ∧
    (((Events.init.add EventName.startup false).add EventName.startup false).create_alerts_list
        [ET.PERMANENT] CP0 sm0 false 0 ≠
      (Events.init.add EventName.startup false).create_alerts_list [ET.PERMANENT] CP0 sm0 false 0) := by
  have hp : ((Events.init.add EventName.startup false).add EventName.startup false).events_prev
      EventName.startup = 0 := rfl
  have hp2 : (Events.init.add EventName.startup false).events_prev EventName.startup = 0 := rfl
  have hdup0 := create_alerts_pair CP0 sm0 false 0 ET.PERMANENT
    (show ((Events.init.add EventName.startup false).add EventName.startup false).events =
      [EventName.startup, EventName.startup] from rfl)
    rfl rfl
    (by rw [hp]; norm_num [StartupAlert, Alert.make, DT_CTRL])
    rfl rfl
    (by rw [hp]; norm_num [stampAlert, StartupAlert, Alert.make, DT_CTRL])
  have hdup : ((Events.init.add EventName.startup false).add EventName.startup false).create_alerts_list
      [ET.PERMANENT] CP0 sm0 false 0 =
      Except.ok [stampAlert EventName.startup ET.PERMANENT
          (StartupAlert (tr ("Be ready to take over at any time")) startupDefaultText2 AlertStatus.normal),
        stampAlert EventName.startup ET.PERMANENT
          (StartupAlert (tr ("Be ready to take over at any time")) startupDefaultText2 AlertStatus.normal)] :=
    hdup0
  have hs0 := create_alerts_single CP0 sm0 false 0 ET.PERMANENT
    (show (Events.init.add EventName.startup false).events = [EventName.startup] from rfl)
    rfl rfl
    (by rw [hp2]; norm_num [StartupAlert, Alert.make, DT_CTRL])
  have hsingle : (Events.init.add EventName.startup false).create_alerts_list
      [ET.PERMANENT] CP0 sm0 false 0 =
      Except.ok [stampAlert EventName.startup ET.PERMANENT
          (StartupAlert (tr ("Be ready to take over at any time")) startupDefaultText2 AlertStatus.normal)] := by
    simp only [Events.create_alerts_list, hs0]
    rfl
  refine ⟨hdup, hsingle, ?_⟩
  rw [hdup, hsingle]
  intro hcontra
  have h2 := congrArg (fun r => match r with
    | Except.ok l => List.length l
    | Except.error _ => 0) hcontra
  exact absurd h2 (by decide)

/-- C4 amended: an identifier occurring more than once in one tick's
events list is treated as a single presence by the age-counter update and
by has_type; create_alerts, however, evaluates the catalog once per
occurrence, so a gated-through fixed alert of a duplicated identifier is
emitted once per occurrence (twice for a doubled identifier, once when it
occurs once). -/
theorem c4_duplicates_amended (s : Events) (e : EventName) (rest : List EventName)
    (et0 et : ET) (a : Alert) (CP : CarParams) (sm : SubMaster) (metric : Bool) (t : Int)
    (hcat : catFind s.catalog e = some [(et0, CatalogVal.fixed a)])
    (hgate : a.creation_delay ≤ DT_CTRL * ((s.events_prev e : ℚ) + 1)) :
    (∀ k, ({ s with events := e :: e :: rest } : Events).clear.events_prev k
        = ({ s with events := e :: rest } : Events).clear.events_prev k) ∧
    (({ s with events := e :: e :: rest } : Events).any et
        = ({ s with events := e :: rest } : Events).any et) ∧
    (({ s with events := [e, e] } : Events).create_alerts_list [et0] CP sm metric t
        = Except.ok [stampAlert e et0 a, stampAlert e et0 a]) ∧
    (({ s with events := [e] } : Events).create_alerts_list [et0] CP sm metric t
        = Except.ok [stampAlert e et0 a]) := by
  have hfind : etFind [(et0, CatalogVal.fixed a)] et0 = some (CatalogVal.fixed a) := by
    simp [etFind]
  refine ⟨?_, ?_, ?_, ?_⟩
  · intro k
    simp only [Events.clear]
    exact if_congr (by simp [List.mem_cons]) rfl rfl
  · simp only [Events.any, List.any_cons]
    rw [← Bool.or_assoc, Bool.or_self]
  · have hc2 : catFind (catSetFixed s.catalog e et0 (stampAlert e et0 a)) e
        = some (setFixed [(et0, CatalogVal.fixed a)] et0 (stampAlert e et0 a)) :=
      catFind_catSetFixed_self hcat
    have hc2b : catFind (catSetFixed s.catalog e et0 (stampAlert e et0 a)) e
        = some [(et0, CatalogVal.fixed (stampAlert e et0 a))] := by
      rw [hc2]
      simp [setFixed]
    have hfind2 : etFind [(et0, CatalogVal.fixed (stampAlert e et0 a))] et0
        = some (CatalogVal.fixed (stampAlert e et0 a)) := by
      simp [etFind]
    have hpair := create_alerts_pair CP sm metric t et0
      (show ({ s with events := [e, e] } : Events).events = [e, e] from rfl)
      hcat hfind hgate hc2b hfind2 hgate
    exact hpair
  · have hs0 := create_alerts_single CP sm metric t et0
      (show ({ s with events := [e] } : Events).events = [e] from rfl)
      hcat hfind hgate
    simp only [Events.create_alerts_list, hs0]
    rfl

/-- C4 witness: the startup entry instantiates the amended claim's
per-occurrence emission. -/
theorem c4_duplicates_witness :
    (catFind Events.init.catalog EventName.startup = some [(ET.PERMANENT,
      CatalogVal.fixed (StartupAlert (tr ("Be ready to take over at any time")) startupDefaultText2
        AlertStatus.normal))]) ∧
    ({ Events.init with events := [EventName.startup, EventName.startup] } : Events).create_alerts_list
        [ET.PERMANENT] CP0 sm0 false 0 =
      Except.ok [stampAlert EventName.startup ET.PERMANENT
          (StartupAlert (tr ("Be ready to take over at any time")) startupDefaultText2 AlertStatus.normal),
        stampAlert EventName.startup ET.PERMANENT
          (StartupAlert (tr ("Be ready to take over at any time")) startupDefaultText2 AlertStatus.normal)] :=
  ⟨rfl,
   (c4_duplicates_amended Events.init EventName.startup [] ET.PERMANENT ET.WARNING
      (StartupAlert (tr ("Be ready to take over at any time")) startupDefaultText2 AlertStatus.normal)
      CP0 sm0 false 0 rfl
      (by norm_num [StartupAlert, Alert.make, DT_CTRL, Events.init, Events.initWith])).2.2.1⟩

/- Preservation of the stamping-erased catalog through create_alerts. -/

theorem Alert.eraseMeta_stamp (e : EventName) (et : ET) (a : Alert) :
    (stampAlert e et a).eraseMeta = a.eraseMeta := rfl

theorem eraseEntryMeta_cons (p : ET × CatalogVal) (rest : CatalogEntry) :
    eraseEntryMeta (p :: rest) = (p.1, p.2.eraseMeta) :: eraseEntryMeta rest := rfl

theorem eraseCatalogMeta_cons (p : EventName × CatalogEntry) (rest : Catalog) :
    eraseCatalogMeta (p :: rest) = (p.1, eraseEntryMeta p.2) :: eraseCatalogMeta rest := rfl

theorem eraseEntryMeta_setFixed {entry : CatalogEntry} {et : ET} {a a2 : Alert}
    (hfind : etFind entry et = some (CatalogVal.fixed a))
    (h2 : a2.eraseMeta = a.eraseMeta) :
    eraseEntryMeta (setFixed entry et a2) = eraseEntryMeta entry := by
  induction entry with
  | nil => rfl
  | cons p rest ih =>
    by_cases hp : p.1 = et
    · simp only [etFind, if_pos hp] at hfind
      injection hfind with hv
      simp only [setFixed, if_pos hp]
      rw [eraseEntryMeta_cons, eraseEntryMeta_cons, hv]
      show (p.1, CatalogVal.fixed a2.eraseMeta) :: _ = (p.1, CatalogVal.fixed a.eraseMeta) :: _
      rw [h2]
    · simp only [etFind, if_neg hp] at hfind
      simp only [setFixed, if_neg hp]
      rw [eraseEntryMeta_cons, eraseEntryMeta_cons, ih hfind]

theorem eraseCatalogMeta_catSetFixed {cat : Catalog} {e : EventName} {et : ET} {a a2 : Alert}
    (hfind : etFind ((catFind cat e).getD []) et = some (CatalogVal.fixed a))
    (h2 : a2.eraseMeta = a.eraseMeta) :
    eraseCatalogMeta (catSetFixed cat e et a2) = eraseCatalogMeta cat := by
  induction cat with
  | nil => rfl
  | cons p rest ih =>
    by_cases hp : p.1 = e
    · simp only [catFind, if_pos hp, Option.getD_some] at hfind
      simp only [catSetFixed, if_pos hp]
      rw [eraseCatalogMeta_cons, eraseCatalogMeta_cons, eraseEntryMeta_setFixed hfind h2]
    · simp only [catFind, if_neg hp] at hfind
      simp only [catSetFixed, if_neg hp]
      rw [eraseCatalogMeta_cons, eraseCatalogMeta_cons, ih hfind]

theorem createAlertsInner_erase (CP : CarParams) (sm : SubMaster) (metric : Bool) (t : Int)
    (prev : Nat) (e : EventName) (s1 s2 : Catalog × List Alert) (et : ET)
    (h : createAlertsInner CP sm metric t prev e (Except.ok s1) et = Except.ok s2) :
    eraseCatalogMeta s2.1 = eraseCatalogMeta s1.1 := by
  cases hf : etFind ((catFind s1.1 e).getD []) et with
  | none =>
    simp only [createAlertsInner, hf] at h
    injection h with h2
    rw [← h2]
  | some v =>
    cases v with
    | fixed a =>
      by_cases hg : a.creation_delay ≤ DT_CTRL * ((prev : ℚ) + 1)
      · simp only [createAlertsInner, hf, if_pos hg] at h
        injection h with h2
        rw [← h2]
        exact eraseCatalogMeta_catSetFixed hf (Alert.eraseMeta_stamp e et a)
      · simp only [createAlertsInner, hf, hg, if_neg hg] at h
        injection h with h2
        rw [← h2]
    | callback f =>
      cases hres : f CP sm metric t with
      | error err => simp [createAlertsInner, hf, hres] at h
      | ok alert =>
        by_cases hg : alert.creation_delay ≤ DT_CTRL * ((prev : ℚ) + 1)
        · simp only [createAlertsInner, hf, hres, if_pos hg] at h
          injection h with h2
          rw [← h2]
        · simp only [createAlertsInner, hf, hres, if_neg hg] at h
          injection h with h2
          rw [← h2]

theorem foldl_inner_erase (CP : CarParams) (sm : SubMaster) (metric : Bool) (t : Int)
    (prev : Nat) (e : EventName) :
    ∀ (ets : List ET) (s1 s2 : Catalog × List Alert),
      ets.foldl (createAlertsInner CP sm metric t prev e) (Except.ok s1) = Except.ok s2 →
      eraseCatalogMeta s2.1 = eraseCatalogMeta s1.1 := by
  intro ets
  induction ets with
  | nil =>
    intro s1 s2 h
    injection h with h2
    rw [← h2]
  | cons et rest ih =>
    intro s1 s2 h
    rw [List.foldl_cons] at h
    cases hstep : createAlertsInner CP sm metric t prev e (Except.ok s1) et with
    | error err =>
      rw [hstep, foldl_createAlertsInner_error] at h
      exact absurd h (by simp)
    | ok smid =>
      rw [hstep] at h
      rw [ih smid s2 h]
      exact createAlertsInner_erase CP sm metric t prev e s1 smid et hstep

theorem foldl_event_erase {CP : CarParams} {sm : SubMaster} {metric : Bool} {t : Int}
    {ets : List ET} {prevf : EventName → Nat} :
    ∀ (l : List EventName) (cat : Catalog) (acc : List Alert) (cat2 : Catalog) (acc2 : List Alert),
      l.foldl (createAlertsEvent CP sm metric t ets prevf) (Except.ok (cat, acc)) =
        Except.ok (cat2, acc2) →
      eraseCatalogMeta cat2 = eraseCatalogMeta cat := by
  intro l
  induction l with
  | nil =>
    intro cat acc cat2 acc2 h
    injection h with h2
    have h3 : cat = cat2 := congrArg Prod.fst h2
    rw [← h3]
  | cons e rest ih =>
    intro cat acc cat2 acc2 h
    rw [List.foldl_cons] at h
    by_cases he : catFind cat e = none
    · rw [createAlertsEvent_err he, foldl_createAlertsEvent_error] at h
      exact absurd h (by simp)
    · obtain ⟨entry, hentry⟩ := Option.ne_none_iff_exists'.mp he
      rw [createAlertsEvent_ok hentry] at h
      cases hmid : ets.foldl (createAlertsInner CP sm metric t (prevf e) e)
          (Except.ok (cat, acc)) with
      | error err =>
        rw [hmid, foldl_createAlertsEvent_error] at h
        exact absurd h (by simp)
      | ok smid =>
        rw [hmid] at h
        rw [ih smid.1 smid.2 cat2 acc2 h]
        exact foldl_inner_erase CP sm metric t (prevf e) e ets (cat, acc) smid hmid

/-- C6 counterexample: create_alerts mutates the catalog — after one
evaluation of the startup permanent alert, the alert_type field stored in
the catalog entry changed from the empty string to "startup/permanent",
so not every field of every fixed catalog alert is preserved. -/
theorem c6_counterexample :
    alertTypeAt EVENTS EventName.startup ET.PERMANENT = some ("") ∧
    alertTypeAt ((Events.init.add EventName.startup false).catalogAfter
        [ET.PERMANENT] CP0 sm0 false 0) EventName.startup ET.PERMANENT =
      some ("startup/permanent") := by
  have hp : (Events.init.add EventName.startup false).events_prev EventName.startup = 0 := rfl
  have hsingle : (Events.init.add EventName.startup false).create_alerts
      [ET.PERMANENT] CP0 sm0 false 0 =
      Except.ok ([stampAlert EventName.startup ET.PERMANENT
          (StartupAlert (tr ("Be ready to take over at any time")) startupDefaultText2 AlertStatus.normal)],
        { Events.init.add EventName.startup false with
          catalog := catSetFixed (Events.init.add EventName.startup false).catalog
            EventName.startup ET.PERMANENT
            (stampAlert EventName.startup ET.PERMANENT
              (StartupAlert (tr ("Be ready to take over at any time")) startupDefaultText2
                AlertStatus.normal)) }) :=
    create_alerts_single CP0 sm0 false 0 ET.PERMANENT rfl rfl rfl
      (by rw [hp]; norm_num [StartupAlert, Alert.make, DT_CTRL])
  constructor
  · rfl
  · simp only [Events.catalogAfter, hsingle]
    rfl

/-- C6 amended: the catalog's key structure, its callback slots, and
every field of its fixed alerts other than alert_type and event_type are
preserved by all engine operations — add and clear leave the catalog
untouched (any and to_msg compute no new state at all), and the catalog
after a successful create_alerts equals the one before up to the
evaluation-time stamping of fixed alerts. -/
theorem c6_catalog_amended (s : Events) (e : EventName) (b : Bool)
    (ets : List ET) (CP : CarParams) (sm : SubMaster) (metric : Bool) (t : Int)
    (l : List Alert) (s2 : Events)
    (h : s.create_alerts ets CP sm metric t = Except.ok (l, s2)) :
    (s.add e b).catalog = s.catalog ∧
    (s.clear).catalog = s.catalog ∧
    eraseCatalogMeta s2.catalog = eraseCatalogMeta s.catalog := by
  refine ⟨rfl, rfl, ?_⟩
  simp only [Events.create_alerts] at h
  revert h
  cases hfold : s.events.foldl (createAlertsEvent CP sm metric t ets s.events_prev)
      (Except.ok (s.catalog, [])) with
  | error err =>
    intro h
    exact Except.noConfusion h
  | ok st =>
    intro h
    injection h with h2
    have h3 : st.1 = s2.catalog := congrArg (fun p => (Prod.snd p).catalog) h2
    rw [← h3]
    exact foldl_event_erase s.events s.catalog [] st.1 st.2 hfold

/-- A one-entry catalog for instantiating the catalog-preservation
statement. -/
def smallCatalog : Catalog :=
  [(EventName.startup, [(ET.PERMANENT,
    CatalogVal.fixed (StartupAlert (tr ("Be ready to take over at any time")) startupDefaultText2
      AlertStatus.normal))])]

/-- C6 witness: a successful create_alerts call over the one-entry
catalog preserves the stamping-erased catalog. -/
theorem c6_catalog_witness :
    eraseCatalogMeta ({ (Events.initWith smallCatalog).add EventName.startup false with
        catalog := catSetFixed ((Events.initWith smallCatalog).add EventName.startup false).catalog
          EventName.startup ET.PERMANENT
          (stampAlert EventName.startup ET.PERMANENT
            (StartupAlert (tr ("Be ready to take over at any time")) startupDefaultText2
              AlertStatus.normal)) } : Events).catalog =
      eraseCatalogMeta ((Events.initWith smallCatalog).add EventName.startup false).catalog :=
  (c6_catalog_amended ((Events.initWith smallCatalog).add EventName.startup false)
    EventName.startup false [ET.PERMANENT] CP0 sm0 false 0
    [stampAlert EventName.startup ET.PERMANENT
      (StartupAlert (tr ("Be ready to take over at any time")) startupDefaultText2 AlertStatus.normal)]
    ({ (Events.initWith smallCatalog).add EventName.startup false with
      catalog := catSetFixed ((Events.initWith smallCatalog).add EventName.startup false).catalog
        EventName.startup ET.PERMANENT
        (stampAlert EventName.startup ET.PERMANENT
          (StartupAlert (tr ("Be ready to take over at any time")) startupDefaultText2
            AlertStatus.normal)) } : Events)
    (create_alerts_single CP0 sm0 false 0 ET.PERMANENT rfl rfl rfl
      (by norm_num [StartupAlert, Alert.make, DT_CTRL, Events.initWith, Events.add]))).2.2

end SdPilot
